import Mathlib

/-!
# PriceHawk front end: client-side domain engine

A shallow embedding of the logic behind the React views of the PriceHawk
front end (`src/frontend/src`): the price-status helper and the local
tracked-product collection of `TrackingList.js`, the dashboard statistics of
`Dashboard.js`, the track, forecast and live-price handlers of `Search.js`,
the listing handlers of `MyProducts.js` and `Notifications.js`, and the
session life cycle and the routes of `App.js`.

Modelling conventions.

* A JavaScript number is `JSNum`: `NaN`, an infinity, or a finite value kept as
  a rational. Rounding to binary64 is `JSNum.round64`: the numbers parsed from
  text are rounded, and so is every step of the sum behind `totalSavings`
  (`JSNum.add64`). The differences of `getPriceStatus` and the fields of the
  fallback forecast are kept as exact rationals (`JSNum.sub`, `JSNum.mul`);
  `fallbackRounded` gives the constants of the fallback forecast with every
  step rounded, and the text of the fallback forecast prints those. The sign
  of zero is not modelled (`-0` and `+0` are the same value).
* A field read from a JSON object that is expected to hold a number is a
  `JSVal`: missing (`undefined`), `null`, or a number.
* A handler with a `try` block whose errors matter returns `Except`: the
  result is `Except.error` exactly when an error would leave the handler.
* What a handler shows to the user is the `error` field of its component or
  a text handed to `alert`; the calls of `console.error`, which every `catch`
  block makes, are not part of the state.
* Every handler is modelled as one atomic step from the component state the
  handler closes over, with the outcome of its network request given as an
  input.
-/

namespace PriceHawk

/-! ## JavaScript numbers -/

/-- A JavaScript number: `NaN`, a finite value, or `-Infinity` / `Infinity`
(`inf true` is the negative one). -/
inductive JSNum where
  | nan
  | fin (q : ℚ)
  | inf (neg : Bool)
  deriving DecidableEq

namespace JSNum

/-- The number `0`. -/
def zero : JSNum := fin 0

/-- The relation `a < b` on numbers; false as soon as one side is `NaN`. -/
def lt : JSNum → JSNum → Bool
  | fin a, fin b => decide (a < b)
  | fin _, inf neg => !neg
  | inf neg, fin _ => neg
  | inf a, inf b => a && !b
  | _, _ => false

/-- The relation `a <= b` on numbers; false as soon as one side is `NaN`. -/
def le : JSNum → JSNum → Bool
  | fin a, fin b => decide (a ≤ b)
  | fin _, inf neg => !neg
  | inf neg, fin _ => neg
  | inf a, inf b => a || !b
  | _, _ => false

/-- The sum `a + b` of two numbers. -/
def add : JSNum → JSNum → JSNum
  | fin a, fin b => fin (a + b)
  | fin _, inf neg => inf neg
  | inf neg, fin _ => inf neg
  | inf a, inf b => if a = b then inf a else nan
  | _, _ => nan

/-- The negation `-a`. -/
def neg : JSNum → JSNum
  | nan => nan
  | fin a => fin (-a)
  | inf n => inf (!n)

/-- The difference `a - b` of two numbers. -/
def sub (a b : JSNum) : JSNum := add a (neg b)

/-- The conversion `ToBoolean` on numbers: `NaN` and `0` are falsy. -/
def toBoolean : JSNum → Bool
  | nan => false
  | fin q => decide (q ≠ 0)
  | inf _ => true

/-- The integer `n` of `Number.prototype.toFixed` for a non-negative finite
`x = num / den`: the integer for which `n / 10^f - x` is closest to zero, the
larger one on a tie, that is `⌊x * 10^f + 1/2⌋`. -/
def fixedInteger (num den f : Nat) : Nat :=
  (2 * num * 10 ^ f + den) / (2 * den)

/-- The digit string of `Number.prototype.toFixed` for the integer `n` and `f`
fraction digits: the decimal digits of `n`, padded on the left with zeros to
`f + 1` characters, with a point before the last `f` of them. -/
def fixedDigits (n f : Nat) : String :=
  let m := (Nat.toDigits 10 n)
  if f = 0 then String.mk m
  else
    let m := List.replicate (f + 1 - m.length) '0' ++ m
    String.mk (m.take (m.length - f) ++ '.' :: m.drop (m.length - f))

/-- The method `x.toFixed(f)` (`Number.prototype.toFixed`). A finite value of
magnitude at least `10^21` is printed by `Number::toString`, whose digits
depend on the binary64 representation: that printer is the parameter
`numberToString`, applied to the magnitude. -/
def toFixed (numberToString : ℚ → String) (x : JSNum) (f : Nat) : String :=
  match x with
  | nan => "NaN"
  | inf neg => if neg then "-Infinity" else "Infinity"
  | fin q =>
    let s := if q.num < 0 then "-" else ""
    if 10 ^ 21 * q.den ≤ q.num.natAbs then s ++ numberToString |q|
    else s ++ fixedDigits (fixedInteger q.num.natAbs q.den f) f

/-- The product `a * b` of two numbers: `0` times an infinity is `NaN`. -/
def mul : JSNum → JSNum → JSNum
  | fin a, fin b => fin (a * b)
  | fin a, inf neg => if a = 0 then nan else inf (xor (decide (a < 0)) neg)
  | inf neg, fin b => if b = 0 then nan else inf (xor neg (decide (b < 0)))
  | inf a, inf b => inf (xor a b)
  | _, _ => nan

/-- The function `Math.abs`. -/
def abs : JSNum → JSNum
  | nan => nan
  | fin a => fin |a|
  | inf _ => inf false

/-- The number of halvings that bring `n` below `2`, at most `fuel` of them:
`⌊log₂ n⌋` for `0 < n` once `fuel` is large enough. -/
def log2Fuel : Nat → Nat → Nat
  | 0, _ => 0
  | fuel + 1, n => if n < 2 then 0 else log2Fuel fuel (n / 2) + 1

/-- The binary64 value nearest to the rational `q`, ties going to the even
significand (the rounding every arithmetic result and every numeric literal
undergoes in the engine): `0` stays `0`, a magnitude that rounds to `2^1024`
or more becomes an infinity, and below `2^-1022` the spacing is that of the
subnormal numbers. -/
def round64 (q : ℚ) : JSNum :=
  let n := q.num.natAbs
  let d := q.den
  if n = 0 then fin 0
  else
    let e0 : Int := (log2Fuel n n : Int) - (log2Fuel d d : Int)
    let atLeast : Bool :=
      if 0 ≤ e0 then decide (2 ^ e0.toNat * d ≤ n) else decide (d ≤ n * 2 ^ (-e0).toNat)
    let e : Int := if atLeast then e0 else e0 - 1
    let shift : Int := max e (-1022) - 52
    let scaledNum := n * 2 ^ (-shift).toNat
    let scaledDen := d * 2 ^ shift.toNat
    let floor := scaledNum / scaledDen
    let rest := scaledNum % scaledDen
    let significand :=
      if scaledDen < 2 * rest || (2 * rest == scaledDen && floor % 2 == 1) then floor + 1
      else floor
    if 1024 ≤ e || (e == 1023 && significand == 2 ^ 53) then inf (decide (q.num < 0))
    else
      fin (mkRat ((if q.num < 0 then -1 else 1) * ((significand * 2 ^ shift.toNat : Nat) : Int))
        (2 ^ (-shift).toNat))

/-- The sum `a + b` as the engine computes it: the exact sum rounded to
binary64. -/
def add64 (a b : JSNum) : JSNum :=
  match add a b with
  | fin q => round64 q
  | other => other

/-- The difference `a - b` as the engine computes it: the exact difference
rounded to binary64. -/
def sub64 (a b : JSNum) : JSNum :=
  match sub a b with
  | fin q => round64 q
  | other => other

/-- The product `a * b` as the engine computes it: the exact product rounded
to binary64. -/
def mul64 (a b : JSNum) : JSNum :=
  match mul a b with
  | fin q => round64 q
  | other => other

/-- The conversion of a number to a string (`Number::toString`), as a template
literal or a string concatenation applies it. The digits of a finite value
depend on the binary64 representation: they are printed by the parameter
`numberToString`, applied to the magnitude. -/
def toString (numberToString : ℚ → String) : JSNum → String
  | nan => "NaN"
  | inf neg => if neg then "-Infinity" else "Infinity"
  | fin q => (if q.num < 0 then "-" else "") ++ numberToString |q|

end JSNum

/-! ## Numeric strings (`parseFloat`, `Number`, `isNaN`) -/

/-- The characters that `parseFloat` and `Number` strip: the white space and
line terminator code points of ECMAScript. -/
def isWhiteSpace (c : Char) : Bool :=
  c.toNat ∈ [0x09, 0x0A, 0x0B, 0x0C, 0x0D, 0x20, 0xA0, 0x1680, 0x2028, 0x2029,
    0x202F, 0x205F, 0x3000, 0xFEFF] || (0x2000 ≤ c.toNat && c.toNat ≤ 0x200A)

/-- The value of a run of decimal digits. -/
def digitsValue (ds : List Char) : Nat :=
  ds.foldl (fun acc c => 10 * acc + (c.toNat - 48)) 0

/-- The number a decimal literal denotes: `mantissa / 10^fracLen * 10^exponent`
rounded to binary64. -/
def decimalValue (mantissa fracLen : Nat) (exponent : Int) : JSNum :=
  JSNum.round64 (mkRat (mantissa * 10 ^ exponent.toNat) (10 ^ fracLen * 10 ^ (-exponent).toNat))

/-- The longest `ExponentPart` (`e` or `E`, an optional sign, digits) at the
head of `cs`, with what follows it; exponent `0` and `cs` itself when there is
none. -/
def scanExponent (cs : List Char) : Int × List Char :=
  match cs with
  | [] => (0, cs)
  | e :: rest =>
    if e = 'e' || e = 'E' then
      let signed : Int × List Char :=
        match rest with
        | '+' :: r => (1, r)
        | '-' :: r => (-1, r)
        | _ => (1, rest)
      let ds := signed.2.takeWhile Char.isDigit
      if ds.isEmpty then (0, cs)
      else (signed.1 * (digitsValue ds : Int), signed.2.dropWhile Char.isDigit)
    else (0, cs)

/-- The longest `StrUnsignedDecimalLiteral` at the head of `cs`, as its value
and what follows it: `Infinity`, or digits with an optional fraction and an
optional exponent, at least one digit being required before the exponent. -/
def scanUnsignedDecimal (cs : List Char) : Option (JSNum × List Char) :=
  match cs with
  | 'I' :: 'n' :: 'f' :: 'i' :: 'n' :: 'i' :: 't' :: 'y' :: rest => some (JSNum.inf false, rest)
  | _ =>
    let intDs := cs.takeWhile Char.isDigit
    match cs.dropWhile Char.isDigit with
    | '.' :: afterPoint =>
      let fracDs := afterPoint.takeWhile Char.isDigit
      if intDs.isEmpty && fracDs.isEmpty then none
      else
        let ex := scanExponent (afterPoint.dropWhile Char.isDigit)
        some (decimalValue (digitsValue (intDs ++ fracDs)) fracDs.length ex.1, ex.2)
    | afterInt =>
      if intDs.isEmpty then none
      else
        let ex := scanExponent afterInt
        some (decimalValue (digitsValue intDs) 0 ex.1, ex.2)

/-- The longest `StrDecimalLiteral` at the head of `cs`: an optional sign and
an unsigned literal. -/
def scanDecimal (cs : List Char) : Option (JSNum × List Char) :=
  match cs with
  | '+' :: rest => scanUnsignedDecimal rest
  | '-' :: rest => (scanUnsignedDecimal rest).map (fun r => (JSNum.neg r.1, r.2))
  | _ => scanUnsignedDecimal cs

/-- The global function `parseFloat` on a string: leading white space is
skipped and the longest prefix that is a decimal literal is read; `NaN` when
there is none. -/
def parseFloat (inputString : String) : JSNum :=
  match scanDecimal (inputString.data.dropWhile isWhiteSpace) with
  | some (value, _) => value
  | none => JSNum.nan

/-- The value of a digit or letter as a digit of a base up to 16, `none` when
it is none. -/
def hexDigit (c : Char) : Option Nat :=
  if c.isDigit then some (c.toNat - 48)
  else if 'a'.toNat ≤ c.toNat && c.toNat ≤ 'f'.toNat then some (c.toNat - 87)
  else if 'A'.toNat ≤ c.toNat && c.toNat ≤ 'F'.toNat then some (c.toNat - 55)
  else none

/-- The value of a non-empty run of digits of the given base, `none` when a
character is not such a digit. -/
def radixValue (base : Nat) (ds : List Char) : Option Nat :=
  if ds.isEmpty then none
  else ds.foldl (fun acc c =>
    match acc, hexDigit c with
    | some a, some d => if d < base then some (base * a + d) else none
    | _, _ => none) (some 0)

/-- The value of a `NonDecimalIntegerLiteral` (`0x`, `0o` or `0b` and digits),
`NaN` when `cs` is none. -/
def nonDecimalValue (cs : List Char) : JSNum :=
  match cs with
  | '0' :: k :: ds =>
    let base : Nat :=
      if k = 'x' || k = 'X' then 16
      else if k = 'o' || k = 'O' then 8
      else if k = 'b' || k = 'B' then 2
      else 0
    match radixValue base ds with
    | some v => JSNum.round64 v
    | none => JSNum.nan
  | _ => JSNum.nan

/-- The conversion `Number(s)` of a string (`StringToNumber`): white space is
stripped at both ends, the empty string is `0`, and the whole rest must be one
numeric literal. -/
def stringToNumber (s : String) : JSNum :=
  let cs := ((s.data.dropWhile isWhiteSpace).reverse.dropWhile isWhiteSpace).reverse
  if cs.isEmpty then JSNum.zero
  else
    match scanDecimal cs with
    | some (value, []) => value
    | _ => nonDecimalValue cs

/-- The global function `isNaN` on a string. -/
def isNaN (s : String) : Bool :=
  stringToNumber s = JSNum.nan

/-- A value read from a field of a JSON object that is expected to hold a
number: the field is missing, holds `null`, or holds a number. -/
inductive JSVal where
  | undefined
  | null
  | num (n : JSNum)
  deriving DecidableEq

namespace JSVal

/-- The conversion `ToNumber`. -/
def toNumber : JSVal → JSNum
  | undefined => JSNum.nan
  | null => JSNum.zero
  | num n => n

/-- The conversion `ToBoolean`. -/
def toBoolean : JSVal → Bool
  | undefined => false
  | null => false
  | num n => n.toBoolean

/-- The expression `a <= b`. -/
def le (a b : JSVal) : Bool := JSNum.le a.toNumber b.toNumber

/-- The expression `a < b`. -/
def lt (a b : JSVal) : Bool := JSNum.lt a.toNumber b.toNumber

/-- The expression `a - b`. -/
def sub (a b : JSVal) : JSNum := JSNum.sub a.toNumber b.toNumber

/-- The expression `a || 0`: `a` when it is truthy (then it is a number),
else `0`. -/
def orZero (a : JSVal) : JSNum := if a.toBoolean then a.toNumber else JSNum.zero

/-- The text a template literal or a string concatenation gives the value. -/
def toText (numberToString : ℚ → String) : JSVal → String
  | undefined => "undefined"
  | null => "null"
  | num n => n.toString numberToString

end JSVal

/-- A value read from the `price` field of a search result: a `JSVal` or a
string. -/
inductive JSValOrString where
  | val (v : JSVal)
  | str (s : String)
  deriving DecidableEq

/-- The conversion `Number(x)`. -/
def JSValOrString.toNumber : JSValOrString → JSNum
  | val v => v.toNumber
  | str s => stringToNumber s

/-- The text a template literal or a string concatenation gives the value. -/
def JSValOrString.toText (numberToString : ℚ → String) : JSValOrString → String
  | val v => v.toText numberToString
  | str s => s

/-- The call `parseFloat(x)`, which parses the text of `x`. A number is printed
in a form that reads back as the same number, so it is returned as it is; the
texts `undefined` and `null` hold no number. -/
def JSValOrString.parseFloat : JSValOrString → JSNum
  | val (JSVal.num n) => n
  | val _ => JSNum.nan
  | str s => PriceHawk.parseFloat s

/-! ## Tracked products (`TrackingList.js`) -/

/-- A tracked product as the server returns it in `products[]`. -/
structure Product where
  _id : String
  product_name : String
  product_url : String
  image_url : String
  platform : String
  current_price : JSVal
  target_price : JSVal
  original_price : JSVal
  notifications_sent : JSVal
  created_at : String
  user_email : String
  deriving DecidableEq

/-! ## Requests and their outcomes -/

/-- What a rejected request gives the `catch` block: `err.message` and the two
fields `err.response?.data?.message` and `err.response?.data?.error`, `none`
when absent. -/
structure RequestError where
  message : String
  responseMessage : Option String
  responseError : Option String
  deriving DecidableEq

/-- The outcome of an awaited request: the body `response.data`, or the error
the request was rejected with. -/
inductive Reply (α : Type) where
  | ok (data : α)
  | error (err : RequestError)

/-- The body `trackData` of `POST /track-product`. -/
structure TrackData where
  name : String
  current_price : JSNum
  target_price : JSNum
  user_email : String
  url : String
  image : String
  platform : String
  deriving DecidableEq

/-- A request handed to `axios`. -/
inductive Request where
  /-- The request `GET /auth/verify`, with the default `Authorization` header
  set at the time of the call. -/
  | authVerify (authorization : Option String)
  /-- The request `DELETE /untrack-product/${productId}`. -/
  | untrackProduct (productId : String)
  /-- The request `PATCH /update-target-price/${productId}` with its body
  `{ target_price }`. -/
  | updateTargetPrice (productId : String) (target_price : JSNum)
  /-- The request `POST /track-product` with its body. -/
  | trackProduct (trackData : TrackData)
  /-- The request `POST /predict-price` with its body
  `{ product_name, current_price, days_ahead }`. -/
  | predictPrice (product_name : String) (current_price : JSValOrString) (days_ahead : Nat)
  /-- The request `POST /realtime-price` with its body `{ url, current_price }`. -/
  | realtimePrice (url : Option String) (current_price : JSValOrString)
  /-- The request `GET /my-products`. -/
  | myProducts
  /-- The request `GET /my-notifications`. -/
  | myNotifications
  /-- The request `POST /send-test-email` with its body `{ email }`. -/
  | sendTestEmail (email : String)
  deriving DecidableEq

/-- The object `{ status, message }` returned by `getPriceStatus`. -/
structure PriceStatus where
  status : String
  message : String
  deriving DecidableEq

/-- The helper `getPriceStatus` of `TrackingList.js`; `none` is `null`. -/
def getPriceStatus (numberToString : ℚ → String) (product : Product) : Option PriceStatus :=
  if !product.target_price.toBoolean then none
  else if JSVal.le product.current_price product.target_price then
    let savings := JSVal.sub product.target_price product.current_price
    some { status := "success",
           message := "Target reached! Save $" ++ savings.toFixed numberToString 2 }
  else
    let diff := JSVal.sub product.current_price product.target_price
    some { status := "warning",
           message := "$" ++ diff.toFixed numberToString 2 ++ " above target" }

/-- The state of the `TrackingList` component, with the messages it has shown
through `window.alert` and the requests it has issued, oldest first. -/
structure TrackingListState where
  products : List Product
  loading : Bool
  error : String
  alerts : List String
  requests : List Request
  deriving DecidableEq

/-- The handler `handleUntrack` of `TrackingList.js`. `confirmed` is the answer
to `window.confirm`, `reply` the outcome of the `DELETE` request, and
`s.products` the collection the handler closes over. -/
def handleUntrack (s : TrackingListState) (productId : String) (confirmed : Bool)
    (reply : Reply Unit) : TrackingListState :=
  if !confirmed then s
  else
    let s := { s with requests := s.requests ++ [Request.untrackProduct productId] }
    match reply with
    | Reply.ok _ =>
      { s with products := s.products.filter (fun p => p._id != productId),
               alerts := s.alerts ++ ["Product untracked successfully!"] }
    | Reply.error _ =>
      { s with alerts := s.alerts ++ ["Failed to untrack product"] }

/-- The handler `handleUpdateTargetPrice` of `TrackingList.js`. `reply` is the
outcome of the `PATCH` request and `s.products` the collection the handler
closes over. -/
def handleUpdateTargetPrice (s : TrackingListState) (productId : String)
    (newTargetPrice : String) (reply : Reply Unit) : TrackingListState :=
  let s := { s with requests :=
    s.requests ++ [Request.updateTargetPrice productId (parseFloat newTargetPrice)] }
  match reply with
  | Reply.ok _ =>
    { s with products := s.products.map (fun p =>
               if p._id == productId
               then { p with target_price := JSVal.num (parseFloat newTargetPrice) }
               else p),
             alerts := s.alerts ++ ["Target price updated!"] }
  | Reply.error _ =>
    { s with alerts := s.alerts ++ ["Failed to update target price"] }

/-! ## Tracking a search result (`Search.js`) -/

/-- A search result, with the fields the handlers read; `none` is a missing
field. -/
structure SearchProduct where
  title : String
  price : JSValOrString
  url : Option String
  image_url : Option String
  source : Option String
  deriving DecidableEq

/-- The expression `x || fallback` on an optional string: `x` unless it is
missing or empty. -/
def stringOr (x : Option String) (fallback : String) : String :=
  match x with
  | some v => if v = "" then fallback else v
  | none => fallback

/-- The state of the `Search` component, with the messages it has shown
through `alert` and the requests it has issued, oldest first. -/
structure SearchState where
  query : String
  results : List SearchProduct
  loading : Bool
  error : String
  recommendations : List String
  alerts : List String
  requests : List Request
  deriving DecidableEq

/-- The body `response.data` of `POST /track-product`. -/
structure TrackReply where
  message : Option String

/-- The text a template literal gives a string field that is present (`some`)
or missing (`none`, read as `undefined`). -/
def templateText (x : Option String) : String := x.getD "undefined"

/-- The handler `handleTrackProduct` of `Search.js`. `targetPrice` and
`userEmail` are the answers to the two `prompt` calls (`none` when the prompt
is cancelled; the second is read only when the first answer passes), `reply`
the outcome of the `POST` request. -/
def handleTrackProduct (s : SearchState) (product : SearchProduct)
    (targetPrice userEmail : Option String) (reply : Reply TrackReply) : SearchState :=
  match targetPrice with
  | none => { s with alerts := s.alerts ++ ["Please enter a valid target price."] }
  | some targetPrice =>
    if targetPrice = "" || isNaN targetPrice then
      { s with alerts := s.alerts ++ ["Please enter a valid target price."] }
    else
      match userEmail with
      | none => { s with alerts := s.alerts ++ ["Email is required for notifications."] }
      | some userEmail =>
        if userEmail = "" then
          { s with alerts := s.alerts ++ ["Email is required for notifications."] }
        else
          let price := product.price.toNumber
          let trackData : TrackData :=
            { name := product.title,
              current_price := if price.toBoolean then price else JSNum.zero,
              target_price := parseFloat targetPrice,
              user_email := userEmail,
              url := stringOr product.url "",
              image := stringOr product.image_url "",
              platform := stringOr product.source "Unknown" }
          let s := { s with requests := s.requests ++ [Request.trackProduct trackData] }
          match reply with
          | Reply.ok data =>
            { s with alerts := s.alerts ++ ["✅ " ++ templateText data.message] }
          | Reply.error err =>
            let errorMsg :=
              stringOr err.responseMessage (stringOr err.responseError err.message)
            { s with alerts := s.alerts ++ ["❌ Failed to track product: " ++ errorMsg] }

/-- The component states that exist side by side in the client: the collection
of tracked products lives in `TrackingList`, the search handlers live in
`Search`, and a handler reaches only the state of its own component. -/
structure Views where
  trackingList : TrackingListState
  search : SearchState
  deriving DecidableEq

/-- The handler `handleTrackProduct` as a step of the whole client. -/
def Views.handleTrackProduct (v : Views) (product : SearchProduct)
    (targetPrice userEmail : Option String) (reply : Reply TrackReply) : Views :=
  { v with search := PriceHawk.handleTrackProduct v.search product targetPrice userEmail reply }

/-! ## Forecast and live price (`Search.js`) -/

/-- What a `try` block throws: the rejection of the awaited request, or the
`TypeError` of reading a property of a `null` body. -/
inductive JSError where
  | rejected (err : RequestError)
  | typeError (message : String)
  deriving DecidableEq

/-- Equality of two handler results is decidable. -/
instance decEqResult {α : Type} [DecidableEq α] : DecidableEq (Except JSError α)
  | Except.ok a, Except.ok b =>
    if h : a = b then isTrue (congrArg Except.ok h)
    else isFalse (fun e => h (Except.ok.inj e))
  | Except.error a, Except.error b =>
    if h : a = b then isTrue (congrArg Except.error h)
    else isFalse (fun e => h (Except.error.inj e))
  | Except.ok _, Except.error _ => isFalse (fun e => Except.noConfusion e)
  | Except.error _, Except.ok _ => isFalse (fun e => Except.noConfusion e)

/-- A field of a response body where the server sends a string: missing (read
as `undefined`), the JSON `null`, or a string. -/
inductive JSText where
  | undefined
  | null
  | str (s : String)
  deriving DecidableEq

/-- The text a template literal gives the field. -/
def JSText.toText : JSText → String
  | undefined => "undefined"
  | null => "null"
  | str s => s

/-- The body `response.data` of `POST /predict-price`, with the fields the
handler reads. -/
structure ForecastData where
  status : JSText
  trend : JSText
  predicted_price : JSValOrString
  price_change : JSValOrString
  recommendation : JSText
  deriving DecidableEq

/-- The constants `variation` and `predictedPrice` of a fallback block (lines
101 and 102, and 114 and 115) as the engine computes them from the current
price and the draw, a binary64 value of `[0, 1)`: every literal and every
arithmetic result is rounded to binary64. -/
def fallbackRounded (currentPrice : JSNum) (random : ℚ) : JSNum × JSNum :=
  let variation :=
    JSNum.mul64 (JSNum.sub64 (JSNum.fin random) (JSNum.round64 (1 / 2))) (JSNum.round64 (1 / 10))
  let predictedPrice := JSNum.mul64 currentPrice (JSNum.add64 (JSNum.fin 1) variation)
  (variation, predictedPrice)

/-- The constants of a fallback block of `handlePriceForecast` and the text it
hands to `alert`. The fields `variation` and `predictedPrice` hold the
constants as exact rationals; the text prints them as the engine computes
them (`fallbackRounded`). For a draw that is a binary64 value of `[0, 1)` the
rounded variation has the sign of the exact one, so the trend of the text is
the field `trend`. -/
structure FallbackForecast where
  currentPrice : JSNum
  variation : JSNum
  predictedPrice : JSNum
  trend : String
  trendIcon : String
  recommendation : String
  alert : String
  deriving DecidableEq

/-- The fallback block of the `else` branch of `handlePriceForecast` (lines
100 to 108); `random` is the value of `Math.random()`. -/
def fallbackElse (numberToString : ℚ → String) (product : SearchProduct) (random : ℚ) :
    FallbackForecast :=
  let currentPrice := product.price.parseFloat
  let variation := JSNum.mul (JSNum.sub (JSNum.fin random) (JSNum.fin (1 / 2))) (JSNum.fin (1 / 10))
  let predictedPrice := JSNum.mul currentPrice (JSNum.add (JSNum.fin 1) variation)
  let trend := if JSNum.lt JSNum.zero variation then "increasing" else "decreasing"
  let trendIcon := if JSNum.lt JSNum.zero variation then "📈" else "📉"
  let recommendation :=
    if JSNum.lt JSNum.zero variation then "Buy now - Price expected to rise"
    else "Wait to buy - Price expected to drop"
  { currentPrice := currentPrice, variation := variation, predictedPrice := predictedPrice,
    trend := trend, trendIcon := trendIcon, recommendation := recommendation,
    alert := "🔮 AI Price Forecast (7 days)\n\n" ++ trendIcon ++ " Trend: " ++ trend ++
      "\n💰 Current: $" ++ currentPrice.toFixed numberToString 2 ++
      "\n🎯 Predicted: $" ++ (fallbackRounded currentPrice random).2.toFixed numberToString 2 ++
      "\n💰 Change: " ++
      (JSNum.mul64 (fallbackRounded currentPrice random).1 (JSNum.fin 100)).toFixed
        numberToString 1 ++
      "%\n\n💡 " ++ recommendation }

/-- The fallback block of the `catch` branch of `handlePriceForecast` (lines
113 to 120); `random` is the value of `Math.random()`. -/
def fallbackCatch (numberToString : ℚ → String) (product : SearchProduct) (random : ℚ) :
    FallbackForecast :=
  let currentPrice := product.price.parseFloat
  let variation := JSNum.mul (JSNum.sub (JSNum.fin random) (JSNum.fin (1 / 2))) (JSNum.fin (1 / 10))
  let predictedPrice := JSNum.mul currentPrice (JSNum.add (JSNum.fin 1) variation)
  let trend := if JSNum.lt JSNum.zero variation then "increasing" else "decreasing"
  let trendIcon := if JSNum.lt JSNum.zero variation then "📈" else "📉"
  let recommendation :=
    if JSNum.lt JSNum.zero variation then "Buy now - Price expected to rise"
    else "Wait to buy - Price expected to drop"
  { currentPrice := currentPrice, variation := variation, predictedPrice := predictedPrice,
    trend := trend, trendIcon := trendIcon, recommendation := recommendation,
    alert := "🔮 AI Price Forecast (7 days)\n\n" ++ trendIcon ++ " Trend: " ++ trend ++
      "\n💰 Current: $" ++ currentPrice.toFixed numberToString 2 ++
      "\n🎯 Predicted: $" ++ (fallbackRounded currentPrice random).2.toFixed numberToString 2 ++
      "\n💰 Change: " ++
      (JSNum.mul64 (fallbackRounded currentPrice random).1 (JSNum.fin 100)).toFixed
        numberToString 1 ++
      "%\n\n💡 " ++ recommendation }

/-- The text the success branch of `handlePriceForecast` hands to `alert`
(lines 97 and 98). -/
def remoteAlert (numberToString : ℚ → String) (product : SearchProduct)
    (forecast : ForecastData) : String :=
  let trend := if forecast.trend = JSText.str "increasing" then "📈" else "📉"
  "🔮 AI Price Forecast (7 days)\n\n" ++ trend ++ " Trend: " ++ forecast.trend.toText ++
    "\n💰 Current: $" ++ product.price.toText numberToString ++
    "\n🎯 Predicted: $" ++ forecast.predicted_price.toText numberToString ++
    "\n💰 Change: " ++ forecast.price_change.toText numberToString ++
    "%\n\n💡 " ++ forecast.recommendation.toText

/-- The handler `handlePriceForecast` of `Search.js`. `reply` is the outcome of
the `POST` request, its body `none` when the response carries `null`, and
`random` the value `Math.random()` returns if a fallback block asks for it.
The result is `Except.error` when an error leaves the handler. -/
def handlePriceForecast (numberToString : ℚ → String) (s : SearchState)
    (product : SearchProduct) (reply : Reply (Option ForecastData)) (random : ℚ) :
    Except JSError SearchState :=
  let s := { s with requests :=
    s.requests ++ [Request.predictPrice product.title product.price 7] }
  let tryBlock : Except JSError SearchState :=
    match reply with
    | Reply.error err => Except.error (JSError.rejected err)
    | Reply.ok none => Except.error (JSError.typeError "Cannot read properties of null")
    | Reply.ok (some forecast) =>
      if forecast.status = JSText.str "success" then
        Except.ok { s with alerts := s.alerts ++ [remoteAlert numberToString product forecast] }
      else
        Except.ok { s with alerts :=
          s.alerts ++ [(fallbackElse numberToString product random).alert] }
  match tryBlock with
  | Except.ok s => Except.ok s
  | Except.error _ =>
    Except.ok { s with alerts := s.alerts ++ [(fallbackCatch numberToString product random).alert] }

/-- The body `response.data` of `POST /realtime-price`, with the fields the
handler reads; `none` is a missing field. -/
structure RealtimeData where
  status : Option String
  price : JSValOrString
  deriving DecidableEq

/-- The constant `priceDiff` of `handleRealtimePrice`:
`currentPrice - product.price`. -/
def priceDiff (currentPrice : JSValOrString) (product : SearchProduct) : JSNum :=
  JSNum.sub currentPrice.toNumber product.price.toNumber

/-- The constant `diffText` of `handleRealtimePrice` (line 135). -/
def diffText (numberToString : ℚ → String) (priceDiff : JSNum) : String :=
  if JSNum.lt JSNum.zero priceDiff then "📈 +$" ++ priceDiff.toFixed numberToString 2
  else if JSNum.lt priceDiff JSNum.zero then
    "📉 -$" ++ (JSNum.abs priceDiff).toFixed numberToString 2
  else "🟢 No change"

/-- The handler `handleRealtimePrice` of `Search.js`. `reply` is the outcome of
the `POST` request, its body `none` when the response carries `null`. The
result is `Except.error` when an error leaves the handler. -/
def handleRealtimePrice (numberToString : ℚ → String) (s : SearchState)
    (product : SearchProduct) (reply : Reply (Option RealtimeData)) :
    Except JSError SearchState :=
  let s := { s with loading := true }
  let s := { s with requests := s.requests ++ [Request.realtimePrice product.url product.price] }
  let tryBlock : Except JSError SearchState :=
    match reply with
    | Reply.error err => Except.error (JSError.rejected err)
    | Reply.ok none => Except.error (JSError.typeError "Cannot read properties of null")
    | Reply.ok (some data) =>
      if data.status = some "success" then
        let currentPrice := data.price
        let priceDiff := priceDiff currentPrice product
        let diffText := diffText numberToString priceDiff
        Except.ok { s with alerts := s.alerts ++
          ["🔄 Live Price Update\n\n💰 Current Live Price: $" ++
            currentPrice.toText numberToString ++
            "\n📋 Cached Price: $" ++ product.price.toText numberToString ++
            "\n" ++ diffText ++ "\n\n🛍️ Source: " ++ templateText product.source] }
      else
        Except.ok { s with alerts := s.alerts ++
          ["❌ Could not fetch live price. Showing cached price: $" ++
            product.price.toText numberToString] }
  let afterCatch : Except JSError SearchState :=
    match tryBlock with
    | Except.ok s => Except.ok s
    | Except.error _ =>
      Except.ok { s with alerts := s.alerts ++
        ["❌ Live price unavailable. Showing cached price: $" ++
          product.price.toText numberToString] }
  afterCatch.map (fun s => { s with loading := false })

/-! ## Dashboard statistics (`Dashboard.js`) -/

/-- A price-drop notification as the server returns it in `notifications[]`. -/
structure Notification where
  _id : String
  product_name : String
  old_price : JSVal
  new_price : JSVal
  target_price : JSVal
  savings : JSVal
  is_read : Bool
  user_email : String
  created_at : String
  deriving DecidableEq

/-- The state object `stats` of `Dashboard`. The field `totalSavings` holds the
number `0` before the first fetch and the string made by `toFixed(2)` after it;
it is kept as the text the view renders. -/
structure DashboardStats where
  trackedProducts : Nat
  unreadNotifications : Nat
  priceDrops : Nat
  totalSavings : String
  deriving DecidableEq

/-- The state of the `Dashboard` component. -/
structure DashboardState where
  stats : DashboardStats
  recentActivity : List Notification
  loading : Bool
  deriving DecidableEq

/-- The state of `Dashboard` when it mounts. -/
def DashboardState.init : DashboardState :=
  { stats := { trackedProducts := 0, unreadNotifications := 0, priceDrops := 0,
               totalSavings := "0" },
    recentActivity := [],
    loading := true }

/-- The body `response.data` of `GET /my-products`; `none` is an absent
`products` field. -/
structure MyProductsData where
  products : Option (List Product)

/-- The body `response.data` of `GET /my-notifications`; `none` is an absent
`notifications` field. -/
structure MyNotificationsData where
  notifications : Option (List Notification)

/-- The handler `fetchDashboardData` of `Dashboard.js`. Each argument is the
body of one of the two joined requests, `none` when that request failed: the
`try` block runs to its end only when both succeeded, and `finally` clears
`loading` in every case. -/
def fetchDashboardData (numberToString : ℚ → String) (s : DashboardState)
    (trackingResponse : Option MyProductsData)
    (notificationsResponse : Option MyNotificationsData) : DashboardState :=
  match trackingResponse, notificationsResponse with
  | some trackingData, some notificationsData =>
    let trackedProducts := trackingData.products.getD []
    let notifications := notificationsData.notifications.getD []
    let unreadCount := (notifications.filter (fun n => !n.is_read)).length
    let priceDrops :=
      (trackedProducts.filter (fun p => JSVal.lt p.current_price p.target_price)).length
    let totalSavings :=
      notifications.foldl (fun sum n => JSNum.add64 sum n.savings.orZero) JSNum.zero
    { stats := { trackedProducts := trackedProducts.length,
                 unreadNotifications := unreadCount,
                 priceDrops := priceDrops,
                 totalSavings := totalSavings.toFixed numberToString 2 },
      recentActivity := (notificationsData.notifications.getD []).take 5,
      loading := false }
  | _, _ => { s with loading := false }

/-- The savings a notification counts for: its `savings` when that is a number
other than `NaN`, and `0` when the field is missing, `null` or `NaN`. -/
def savingsOf (n : Notification) : JSNum :=
  match n.savings with
  | JSVal.num (JSNum.fin q) => JSNum.fin q
  | JSVal.num (JSNum.inf neg) => JSNum.inf neg
  | _ => JSNum.zero

/-- The sum of a list of numbers taken from left to right, every partial sum
rounded to binary64. -/
def binarySum (l : List JSNum) : JSNum := l.foldl JSNum.add64 JSNum.zero

/-- The sum of a list of numbers in the arithmetic of the rationals. -/
def exactSum (l : List JSNum) : JSNum := l.foldl JSNum.add JSNum.zero

/-- The number is a binary64 value: rounding leaves it as it is. -/
def JSNum.isBinary64 : JSNum → Bool
  | JSNum.fin q => decide (JSNum.round64 q = JSNum.fin q)
  | _ => true

/-- No partial sum of the list needs rounding: every sum of a prefix is a
binary64 value. -/
def exactPrefixSums (l : List JSNum) : Prop :=
  ∀ k, k ≤ l.length → (exactSum (l.take k)).isBinary64 = true

/-! ## Session (`App.js`) -/

/-- The identity `user` the auth service returns. -/
structure Identity where
  id : String
  email : String
  deriving DecidableEq

/-- The session as `App` sees it: the item `token` of `localStorage`, the
default header `axios.defaults.headers.common['Authorization']`, the state
variables `user` (`none` is `null`) and `loading`, and the requests issued so
far, oldest first. -/
structure SessionState where
  token : Option String
  authorization : Option String
  user : Option Identity
  loading : Bool
  requests : List Request
  deriving DecidableEq

/-- The session when the process starts with `stored` in `localStorage`:
`useState(null)`, `useState(true)`, no default header, nothing requested. -/
def SessionState.init (stored : Option String) : SessionState :=
  { token := stored, authorization := none, user := none, loading := true, requests := [] }

/-- The body `response.data` of `GET /auth/verify`; `user` is `none` when the
field is absent. -/
structure VerifyData where
  valid : Bool
  user : Option Identity
  deriving DecidableEq

/-- The mount effect of `App` (lines 30 to 52), which restores the session.
`verify` is the outcome of `GET /auth/verify`; it is read only when the request
is issued, that is when the stored token is truthy (present and non-empty). -/
def restoreSession (s : SessionState) (verify : Reply VerifyData) : SessionState :=
  match s.token with
  | none => { s with loading := false }
  | some token =>
    if token = "" then { s with loading := false }
    else
      let s := { s with authorization := some ("Bearer " ++ token) }
      let s := { s with requests := s.requests ++ [Request.authVerify s.authorization] }
      match verify with
      | Reply.ok data =>
        if data.valid then { s with user := data.user, loading := false }
        else { s with token := none, authorization := none, loading := false }
      | Reply.error _ =>
        { s with token := none, authorization := none, loading := false }

/-- The function `login` of `App.js`. -/
def login (s : SessionState) (userData : Option Identity) (token : String) : SessionState :=
  { s with token := some token,
           authorization := some ("Bearer " ++ token),
           user := userData }

/-- The function `logout` of `App.js`. -/
def logout (s : SessionState) : SessionState :=
  { s with token := none, authorization := none, user := none }

/-- A call of `login` or of `logout`. -/
inductive SessionAction where
  | login (userData : Option Identity) (token : String)
  | logout
  deriving DecidableEq

/-- The effect of one call on the session. -/
def SessionAction.apply (s : SessionState) : SessionAction → SessionState
  | SessionAction.login userData token => PriceHawk.login s userData token
  | SessionAction.logout => PriceHawk.logout s

/-- The session after the process starts with `stored` in `localStorage`, the
mount effect runs with the verify outcome `verify`, and the calls `actions`
are made in order. -/
def runSession (stored : Option String) (verify : Reply VerifyData)
    (actions : List SessionAction) : SessionState :=
  actions.foldl SessionAction.apply (restoreSession (SessionState.init stored) verify)

/-- The session invariant: the `Authorization` header is present if and only
if a credential is stored, it is then `Bearer ` followed by that credential,
and an identity is held only when a credential is stored. -/
def sessionInvariant (s : SessionState) : Prop :=
  (s.authorization.isSome = s.token.isSome) ∧
  (∀ t, s.token = some t → s.authorization = some ("Bearer " ++ t)) ∧
  (s.user.isSome = true → s.token.isSome = true)

/-! ## Routes (`App.js`) -/

/-- What a route of `App` renders. -/
inductive RouteElement where
  | login
  | register
  | dashboard
  | search
  | trackingList
  | myProducts
  | notifications
  /-- The element `<Navigate to=... />`. -/
  | navigate (target : String)
  deriving DecidableEq

/-- What `App` returns for a location: the loading screen, the element of the
route that matches the path, or nothing when no route matches. -/
inductive Rendered where
  | loadingScreen
  | element (e : RouteElement)
  | noMatch
  deriving DecidableEq

/-- The key under which the router compares a location with a route path:
the characters of `path` without the slashes at its end, the letters `A` to
`Z` in lower case. -/
def routeKey (path : String) : List Char :=
  ((path.data.reverse.dropWhile (fun c => c == '/')).reverse).map Char.toLower

/-- Whether the route `<Route path=route>` matches the location `path`. The
router compiles a route path without parameters to the pattern
`^route\/*$` (`^\/\/*$` for the route `/`) and applies it without regard to
letter case: the location is the route path, in any letter case, followed by
any number of slashes. The location is taken undecoded. -/
def matchesRoute (route path : String) : Bool :=
  path.data ≠ [] && routeKey path == routeKey route

/-- The render of `App` (lines 66 to 95) at the location `path`. No location
matches two of the routes, so the order in which they are tried plays no
part. -/
def render (s : SessionState) (path : String) : Rendered :=
  if s.loading then Rendered.loadingScreen
  else if matchesRoute "/login" path then
    Rendered.element
      (if s.user.isNone then RouteElement.login else RouteElement.navigate "/dashboard")
  else if matchesRoute "/register" path then
    Rendered.element
      (if s.user.isNone then RouteElement.register else RouteElement.navigate "/dashboard")
  else if matchesRoute "/dashboard" path then
    Rendered.element
      (if s.user.isSome then RouteElement.dashboard else RouteElement.navigate "/login")
  else if matchesRoute "/search" path then Rendered.element RouteElement.search
  else if matchesRoute "/tracking" path then
    Rendered.element
      (if s.user.isSome then RouteElement.trackingList else RouteElement.navigate "/login")
  else if matchesRoute "/my-products" path then Rendered.element RouteElement.myProducts
  else if matchesRoute "/notifications" path then Rendered.element RouteElement.notifications
  else if matchesRoute "/" path then
    Rendered.element
      (RouteElement.navigate (if s.user.isSome then "/dashboard" else "/login"))
  else Rendered.noMatch

/-- The links the navigation bar shows (`Navbar.js`, lines 11 to 33), in
order: the brand, three links shown to everyone, then the links for a held
identity or those for none. -/
def navbarLinks (s : SessionState) : List String :=
  ["/", "/search", "/my-products", "/notifications"] ++
    (if s.user.isSome then ["/dashboard", "/tracking"] else ["/login", "/register"])

/-! ## Listing and test e-mail (`TrackingList.js`, `MyProducts.js`, `Notifications.js`) -/

/-- The handler `fetchTrackedProducts` of `TrackingList.js`. -/
def fetchTrackedProducts (s : TrackingListState) (reply : Reply MyProductsData) :
    TrackingListState :=
  let s := { s with requests := s.requests ++ [Request.myProducts] }
  match reply with
  | Reply.ok data => { s with products := data.products.getD [], loading := false }
  | Reply.error _ => { s with error := "Failed to load tracked products", loading := false }

/-- The state of the `MyProducts` component. -/
structure MyProductsState where
  products : List Product
  loading : Bool
  error : String
  deriving DecidableEq

/-- The handler `fetchProducts` of `MyProducts.js`. -/
def fetchProducts (s : MyProductsState) (reply : Reply MyProductsData) : MyProductsState :=
  let s := { s with loading := true }
  match reply with
  | Reply.ok data => { s with products := data.products.getD [], error := "", loading := false }
  | Reply.error err =>
    let errorMsg :=
      stringOr err.responseError (stringOr (some err.message) "Failed to load tracked products")
    { s with error := errorMsg, loading := false }

/-- The state of the `Notifications` component, with the messages it has shown
through `alert` and the requests it has issued, oldest first. -/
structure NotificationsState where
  notifications : List Notification
  loading : Bool
  error : String
  alerts : List String
  requests : List Request
  deriving DecidableEq

/-- The handler `fetchNotifications` of `Notifications.js`. -/
def fetchNotifications (s : NotificationsState) (reply : Reply MyNotificationsData) :
    NotificationsState :=
  let s := { s with loading := true, requests := s.requests ++ [Request.myNotifications] }
  match reply with
  | Reply.ok data => { s with notifications := data.notifications.getD [], loading := false }
  | Reply.error _ => { s with error := "Failed to load notifications", loading := false }

/-- The body `response.data` of `POST /send-test-email`. -/
structure TestEmailReply where
  message : Option String

/-- The handler `sendTestNotification` of `Notifications.js`. `email` is the
answer to `prompt` (`none` when the prompt is cancelled), `reply` the outcome
of the `POST` request. -/
def sendTestNotification (s : NotificationsState) (email : Option String)
    (reply : Reply TestEmailReply) : NotificationsState :=
  match email with
  | none => s
  | some email =>
    if email = "" then s
    else
      let s := { s with requests := s.requests ++ [Request.sendTestEmail email] }
      match reply with
      | Reply.ok data => { s with alerts := s.alerts ++ ["✅ " ++ templateText data.message] }
      | Reply.error err =>
        let errorMsg := stringOr err.responseMessage "Failed to send test email"
        { s with alerts := s.alerts ++ ["❌ " ++ errorMsg] }

/-! ## The price status of `MyProducts.js` -/

/-- The constants the row of a product computes in `MyProducts.js` (lines 65
to 68) and the text of its status line (lines 98 to 101); `savings` is the
string made by `toFixed(2)` or the number `0`. -/
structure ProductRow where
  priceStatus : String
  statusIcon : String
  savings : JSValOrString
  message : String
  deriving DecidableEq

/-- The inline price status of `MyProducts.js`. -/
def productRow (numberToString : ℚ → String) (product : Product) : ProductRow :=
  let priceStatus :=
    if JSVal.le product.current_price product.target_price then "success" else "warning"
  let statusIcon := if JSVal.le product.current_price product.target_price then "✅" else "⏳"
  let savings : JSValOrString :=
    if JSVal.le product.current_price product.target_price then
      JSValOrString.str
        ((JSVal.sub product.target_price product.current_price).toFixed numberToString 2)
    else JSValOrString.val (JSVal.num (JSNum.fin 0))
  { priceStatus := priceStatus, statusIcon := statusIcon, savings := savings,
    message :=
      if JSVal.le product.current_price product.target_price then
        "Target reached! Save $" ++ savings.toText numberToString
      else
        "$" ++ (JSVal.sub product.current_price product.target_price).toFixed numberToString 2 ++
          " above target" }

/-! ## Example inputs -/

/-- A product tracked at price `0` with target price `0`. -/
def zeroTargetProduct : Product :=
  { _id := "p1", product_name := "Desk lamp", product_url := "", image_url := "",
    platform := "Unknown",
    current_price := JSVal.num (JSNum.fin 0),
    target_price := JSVal.num (JSNum.fin 0),
    original_price := JSVal.num (JSNum.fin 0),
    notifications_sent := JSVal.num (JSNum.fin 0),
    created_at := "2024-01-01T00:00:00Z", user_email := "user@example.com" }

/-- A product tracked at price `100` with target price `90`. -/
def lampAt100 : Product :=
  { _id := "p1", product_name := "Desk lamp", product_url := "", image_url := "",
    platform := "Unknown",
    current_price := JSVal.num (JSNum.fin 100),
    target_price := JSVal.num (JSNum.fin 90),
    original_price := JSVal.num (JSNum.fin 100),
    notifications_sent := JSVal.num (JSNum.fin 0),
    created_at := "2024-01-01T00:00:00Z", user_email := "user@example.com" }

/-- The state of `TrackingList` that holds `lampAt100` alone. -/
def lampTracked : TrackingListState :=
  { products := [lampAt100], loading := false, error := "", alerts := [], requests := [] }

/-- A search result priced `100`. -/
def searchLamp : SearchProduct :=
  { title := "Desk lamp", price := JSValOrString.val (JSVal.num (JSNum.fin 100)),
    url := some "https://shop.example/lamp", image_url := none, source := some "Shop" }

/-- The error of a request that reached no server. -/
def networkError : RequestError :=
  { message := "Network Error", responseMessage := none, responseError := none }

/-- The session of a visitor who starts with no stored credential, once the
mount effect has run. -/
def signedOut : SessionState :=
  restoreSession (SessionState.init none) (Reply.error networkError)

/-- A search result whose `price` is the text `100`. -/
def searchLampText : SearchProduct :=
  { title := "Desk lamp", price := JSValOrString.str "100",
    url := some "https://shop.example/lamp", image_url := none, source := some "Shop" }

/-- The state of `Search` with `searchLamp` as its only result. -/
def lampSearch : SearchState :=
  { query := "lamp", results := [searchLamp], loading := false, error := "",
    recommendations := [], alerts := [], requests := [] }

/-- A success response of the forecast endpoint, its numbers sent as text. -/
def remoteForecast : ForecastData :=
  { status := JSText.str "success", trend := JSText.str "decreasing",
    predicted_price := JSValOrString.str "94.5", price_change := JSValOrString.str "-5.5",
    recommendation := JSText.str "Wait for a better price" }

/-- A response of the forecast endpoint with the status `error`. -/
def failedForecast : ForecastData :=
  { status := JSText.str "error", trend := JSText.undefined,
    predicted_price := JSValOrString.val JSVal.undefined,
    price_change := JSValOrString.val JSVal.undefined, recommendation := JSText.undefined }

/-- A search result whose `price` is the text `Infinity`. -/
def infinitePriceResult : SearchProduct :=
  { title := "Desk lamp", price := JSValOrString.str "Infinity",
    url := some "https://shop.example/lamp", image_url := none, source := some "Shop" }

/-- A search result whose `price` is the text `N/A`. -/
def unpricedResult : SearchProduct :=
  { title := "Desk lamp", price := JSValOrString.str "N/A",
    url := some "https://shop.example/lamp", image_url := none, source := some "Shop" }

/-- The state of `Search` with `unpricedResult` as its only result. -/
def unpricedSearch : SearchState :=
  { query := "lamp", results := [unpricedResult], loading := false, error := "",
    recommendations := [], alerts := [], requests := [] }

/-- A success response of the live-price endpoint with price `10`. -/
def livePriceTen : RealtimeData :=
  { status := some "success", price := JSValOrString.val (JSVal.num (JSNum.fin 10)) }

/-- A read notification with savings `10.125`. -/
def noteRead : Notification :=
  { _id := "n1", product_name := "Desk lamp",
    old_price := JSVal.num (JSNum.fin 100), new_price := JSVal.num (JSNum.fin (mkRat 89875 1000)),
    target_price := JSVal.num (JSNum.fin 90), savings := JSVal.num (JSNum.fin (mkRat 10125 1000)),
    is_read := true, user_email := "user@example.com", created_at := "2024-01-02T00:00:00Z" }

/-- An unread notification without savings. -/
def noteUnread : Notification :=
  { _id := "n2", product_name := "Desk lamp",
    old_price := JSVal.num (JSNum.fin 100), new_price := JSVal.num (JSNum.fin 95),
    target_price := JSVal.num (JSNum.fin 90), savings := JSVal.undefined,
    is_read := false, user_email := "user@example.com", created_at := "2024-01-01T00:00:00Z" }

/-- An unread notification with savings `0.5`. -/
def noteHalf : Notification :=
  { noteUnread with _id := "n3", savings := JSVal.num (JSNum.fin (mkRat 1 2)) }

/-- A notification whose savings are the binary64 value of the literal written
as `thousandths / 1000`. -/
def noteOfThousandths (id : String) (thousandths : Nat) : Notification :=
  { noteUnread with _id := id, savings := JSVal.num (JSNum.round64 (mkRat thousandths 1000)) }

/-- Three notifications with savings `0.001`, `0.002` and `0.022`. -/
def milliNotes : List Notification :=
  [noteOfThousandths "a" 1, noteOfThousandths "b" 2, noteOfThousandths "c" 22]

/-- A product tracked at price `80` with target price `90`. -/
def lampAt80 : Product :=
  { lampAt100 with _id := "p2", current_price := JSVal.num (JSNum.fin 80) }

/-- A product tracked at price `90` with target price `90`. -/
def lampAt90 : Product :=
  { lampAt100 with _id := "p3", current_price := JSVal.num (JSNum.fin 90) }

/-! ## The model on concrete inputs -/

/-- The method `toFixed(2)` on `10`, `0.005`, `-0.001` and `1234.5`. -/
theorem toFixed_values (numberToString : ℚ → String) :
    JSNum.toFixed numberToString (JSNum.fin 10) 2 = "10.00" ∧
    JSNum.toFixed numberToString (JSNum.fin (mkRat 5 1000)) 2 = "0.01" ∧
    JSNum.toFixed numberToString (JSNum.fin (mkRat (-1) 1000)) 2 = "-0.00" ∧
    JSNum.toFixed numberToString (JSNum.fin (mkRat 12345 10)) 2 = "1234.50" ∧
    JSNum.toFixed numberToString JSNum.nan 2 = "NaN" := by
  refine ⟨rfl, rfl, rfl, rfl, rfl⟩

/-- The functions `parseFloat`, `Number` and `isNaN` on a few strings. -/
theorem numeric_string_values :
    parseFloat "110" = JSNum.fin 110 ∧
    parseFloat " 12.5abc" = JSNum.fin (mkRat 25 2) ∧
    parseFloat "-.5e1" = JSNum.fin (-5) ∧
    parseFloat "abc" = JSNum.nan ∧
    parseFloat " " = JSNum.nan ∧
    stringToNumber " " = JSNum.fin 0 ∧
    stringToNumber "12.5abc" = JSNum.nan ∧
    stringToNumber "0x1f" = JSNum.fin 31 ∧
    isNaN "12.5" = false ∧
    isNaN "12.5abc" = true := by
  decide

/-! ## Arithmetic of `JSNum` -/

/-- Addition of numbers is commutative. -/
theorem jsAdd_comm (a b : JSNum) : JSNum.add a b = JSNum.add b a := by
  cases a <;> cases b <;> simp [JSNum.add, add_comm]
  rename_i x y
  cases x <;> cases y <;> simp

/-- Addition of numbers is associative. -/
theorem jsAdd_assoc (a b c : JSNum) :
    JSNum.add (JSNum.add a b) c = JSNum.add a (JSNum.add b c) := by
  cases a <;> cases b <;> cases c <;> simp [JSNum.add, add_assoc] <;>
    (try split_ifs) <;> simp_all [JSNum.add]

/-- Adding `0` on the right changes nothing. -/
theorem jsAdd_zero (a : JSNum) : JSNum.add a JSNum.zero = a := by
  cases a <;> simp [JSNum.add, JSNum.zero]

/-- Adding `0` on the left changes nothing. -/
theorem jsZero_add (a : JSNum) : JSNum.add JSNum.zero a = a := by
  rw [jsAdd_comm, jsAdd_zero]

/-- The quantity `fixedInteger num den f` is `⌊x * 10^f + 1/2⌋` for
`x = num / den`. -/
theorem fixedInteger_bounds (num den f : Nat) (hden : 0 < den) :
    ((JSNum.fixedInteger num den f : ℕ) : ℚ) ≤ (num : ℚ) / den * 10 ^ f + 1 / 2 ∧
    (num : ℚ) / den * 10 ^ f + 1 / 2 < (JSNum.fixedInteger num den f : ℕ) + 1 := by
  have hd : (0 : ℚ) < den := by exact_mod_cast hden
  have h2d : 0 < 2 * den := by omega
  have hlo : 2 * den * JSNum.fixedInteger num den f ≤ 2 * num * 10 ^ f + den :=
    Nat.mul_div_le _ _
  have hhi : 2 * num * 10 ^ f + den < 2 * den * (JSNum.fixedInteger num den f + 1) :=
    Nat.lt_mul_div_succ _ h2d
  have hlo' : (2 * den * JSNum.fixedInteger num den f : ℚ) ≤ 2 * num * 10 ^ f + den := by
    exact_mod_cast hlo
  have hhi' : (2 * num * 10 ^ f + den : ℚ) < 2 * den * (JSNum.fixedInteger num den f + 1) := by
    exact_mod_cast hhi
  have e : (num : ℚ) / den * 10 ^ f + 1 / 2 = (2 * num * 10 ^ f + den) / (2 * den) := by
    field_simp
    ring
  rw [e]
  constructor
  · rw [le_div_iff₀ (by positivity)]
    linarith
  · rw [div_lt_iff₀ (by positivity)]
    linarith

/-- The magnitude of a rational as the quotient of its fields. -/
theorem abs_eq_natAbs_div (q : ℚ) : |q| = (q.num.natAbs : ℚ) / q.den := by
  have h := Rat.abs_def q
  rw [h, Rat.divInt_eq_div]
  push_cast
  simp [Nat.cast_natAbs]

/-- Whenever `a <= b` holds, `b - a` is not negative. -/
theorem jsSub_not_neg (a b : JSNum) (h : JSNum.le a b = true) :
    JSNum.lt (JSNum.sub b a) JSNum.zero = false := by
  cases a <;> cases b <;>
    simp_all [JSNum.le, JSNum.lt, JSNum.sub, JSNum.add, JSNum.neg, JSNum.zero]
  · rename_i x y
    cases x <;> cases y <;> simp_all [JSNum.lt]

/-! ## The price status -/

/-- C1, as the code has it: `getPriceStatus(p)` is the reached result (status
`success`, message `Target reached! Save $` followed by the savings to two
decimals) if and only if `p.target_price` is truthy and
`p.current_price <= p.target_price`; the savings printed are
`p.target_price - p.current_price`, which is not negative whenever
`p.current_price <= p.target_price`; for finite prices `c` and `t` these are
the difference `t - c` and the order `c ≤ t` of the rationals. -/
theorem getPriceStatus_reached_iff (numberToString : ℚ → String) (p : Product) :
    (getPriceStatus numberToString p =
        some { status := "success",
               message := "Target reached! Save $" ++
                 (JSVal.sub p.target_price p.current_price).toFixed numberToString 2 }
      ↔ (p.target_price.toBoolean = true ∧ JSVal.le p.current_price p.target_price = true)) ∧
    ((getPriceStatus numberToString p).map PriceStatus.status = some "success"
      ↔ (p.target_price.toBoolean = true ∧ JSVal.le p.current_price p.target_price = true)) ∧
    (JSVal.le p.current_price p.target_price = true →
      JSNum.lt (JSVal.sub p.target_price p.current_price) JSNum.zero = false) ∧
    (∀ c t : ℚ, p.current_price = JSVal.num (JSNum.fin c) →
      p.target_price = JSVal.num (JSNum.fin t) →
      JSVal.sub p.target_price p.current_price = JSNum.fin (t - c) ∧
      (JSVal.le p.current_price p.target_price = true ↔ c ≤ t) ∧
      (c ≤ t → 0 ≤ t - c)) := by
  refine ⟨?_, ?_, fun h => jsSub_not_neg _ _ h, ?_⟩
  rotate_right
  · intro c t hc ht
    refine ⟨?_, ?_, fun h => sub_nonneg.mpr h⟩
    · simp [hc, ht, JSVal.sub, JSVal.toNumber, JSNum.sub, JSNum.add, JSNum.neg, sub_eq_add_neg]
    · simp [hc, ht, JSVal.le, JSVal.toNumber, JSNum.le]
  · unfold getPriceStatus
    cases ht : p.target_price.toBoolean <;> cases hle : JSVal.le p.current_price p.target_price <;>
      simp
  · unfold getPriceStatus
    cases ht : p.target_price.toBoolean <;> cases hle : JSVal.le p.current_price p.target_price <;>
      simp

/-- C1, as stated, fails: the product tracked at price `0` with target price
`0` has `current_price <= target_price`, yet `getPriceStatus` returns `null`
for it, not the reached result. -/
theorem getPriceStatus_zero_target_not_reached :
    JSVal.le zeroTargetProduct.current_price zeroTargetProduct.target_price = true ∧
    ∀ numberToString : ℚ → String, getPriceStatus numberToString zeroTargetProduct = none := by
  constructor
  · decide
  · intro numberToString
    simp [getPriceStatus, zeroTargetProduct, JSVal.toBoolean, JSNum.toBoolean]

/-! ## The dashboard statistics -/

/-- C2: for every list of tracked products and every list of notifications,
the statistics set by `fetchDashboardData` have `trackedProducts` the length of
the product list, `unreadNotifications` the number of notifications with
`is_read = false`, and `priceDrops` the number of products with
`current_price < target_price`, strictly. -/
theorem fetchDashboardData_counts (numberToString : ℚ → String) (s : DashboardState)
    (products : List Product) (notifications : List Notification) :
    (fetchDashboardData numberToString s (some { products := some products })
        (some { notifications := some notifications })).stats.trackedProducts
      = products.length ∧
    (fetchDashboardData numberToString s (some { products := some products })
        (some { notifications := some notifications })).stats.unreadNotifications
      = notifications.countP (fun n => decide (n.is_read = false)) ∧
    (fetchDashboardData numberToString s (some { products := some products })
        (some { notifications := some notifications })).stats.priceDrops
      = products.countP
          (fun p => JSNum.lt p.current_price.toNumber p.target_price.toNumber) := by
  refine ⟨rfl, ?_, ?_⟩
  · simp only [fetchDashboardData, Option.getD_some, List.countP_eq_length_filter]
    congr 2
    funext n
    cases n.is_read <;> rfl
  · simp only [fetchDashboardData, Option.getD_some, List.countP_eq_length_filter]
    rfl

/-- The term `n.savings || 0` of the reduce is the savings the notification
counts for. -/
theorem orZero_eq_savingsOf (n : Notification) : n.savings.orZero = savingsOf n := by
  unfold JSVal.orZero savingsOf
  cases h : n.savings with
  | undefined => rfl
  | null => rfl
  | num x =>
    cases x with
    | nan => rfl
    | fin q =>
      by_cases hq : q = 0
      · simp [JSVal.toBoolean, JSNum.toBoolean, JSVal.toNumber, JSNum.zero, hq]
      · simp [JSVal.toBoolean, JSNum.toBoolean, JSVal.toNumber, hq]
    | inf neg => rfl

/-- The reduce of `fetchDashboardData` is the left-to-right binary64 sum of
the savings the notifications count for. -/
theorem foldl_savings (l : List Notification) (a : JSNum) :
    l.foldl (fun sum n => JSNum.add64 sum n.savings.orZero) a
      = (l.map savingsOf).foldl JSNum.add64 a := by
  induction l generalizing a with
  | nil => rfl
  | cons n rest ih =>
    rw [List.foldl_cons, List.map_cons, List.foldl_cons, orZero_eq_savingsOf]
    exact ih _

/-- A sum that needs no rounding is the sum in the arithmetic of the
rationals. -/
theorem add64_of_isBinary64 (a b : JSNum) (h : (JSNum.add a b).isBinary64 = true) :
    JSNum.add64 a b = JSNum.add a b := by
  unfold JSNum.add64
  cases hab : JSNum.add a b with
  | nan => rfl
  | fin q =>
    rw [hab] at h
    simpa [JSNum.isBinary64] using h
  | inf neg => rfl

/-- When no partial sum needs rounding, the binary64 sum of a list is its sum
in the arithmetic of the rationals. -/
theorem binarySum_eq_exactSum (l : List JSNum) (h : exactPrefixSums l) :
    binarySum l = exactSum l := by
  induction l using List.reverseRecOn with
  | nil => rfl
  | append_singleton l a ih =>
    have hl : exactPrefixSums l := by
      intro k hk
      have := h k (by simp; omega)
      rwa [List.take_append_of_le_length hk] at this
    have hlast : (exactSum (l ++ [a])).isBinary64 = true := by
      have := h (l ++ [a]).length (le_refl _)
      rwa [List.take_length] at this
    have hstep : exactSum (l ++ [a]) = JSNum.add (exactSum l) a := by
      simp [exactSum, List.foldl_append]
    unfold binarySum
    rw [List.foldl_append, List.foldl_cons, List.foldl_nil]
    change JSNum.add64 (binarySum l) a = _
    rw [ih hl, hstep]
    exact add64_of_isBinary64 _ _ (hstep ▸ hlast)

/-- C3: for every list of notifications, `totalSavings` is the sum, taken from
left to right in binary64, of the savings of all of them, whatever their
`is_read` flag, one without savings counting for `0`, printed by `toFixed(2)`.
It depends on the `savings` fields alone; it is the sum in the arithmetic of
the rationals when no partial sum needs rounding; when it is a finite `q`
below `10^21` in magnitude the text is the sign of `q` and the two-decimal
digits of a whole number `n` of hundredths within half a hundredth of `|q|`;
and for a read notification with savings `10.125`, an unread one without
savings and an unread one with savings `0.5` it is the text `10.63`. -/
theorem fetchDashboardData_totalSavings (numberToString : ℚ → String) (s : DashboardState)
    (trackingData : MyProductsData) (notifications : List Notification) :
    (fetchDashboardData numberToString s (some trackingData)
        (some { notifications := some notifications })).stats.totalSavings
      = JSNum.toFixed numberToString (binarySum (notifications.map savingsOf)) 2 ∧
    (∀ others : List Notification,
      others.map (fun n => n.savings) = notifications.map (fun n => n.savings) →
      (fetchDashboardData numberToString s (some trackingData)
          (some { notifications := some others })).stats.totalSavings
        = (fetchDashboardData numberToString s (some trackingData)
          (some { notifications := some notifications })).stats.totalSavings) ∧
    (exactPrefixSums (notifications.map savingsOf) →
      binarySum (notifications.map savingsOf) = exactSum (notifications.map savingsOf)) ∧
    (∀ q : ℚ, binarySum (notifications.map savingsOf) = JSNum.fin q → |q| < 10 ^ 21 →
      ∃ n : ℕ,
        (fetchDashboardData numberToString s (some trackingData)
            (some { notifications := some notifications })).stats.totalSavings
          = (if q < 0 then "-" else "") ++ JSNum.fixedDigits n 2 ∧
        abs ((n : ℚ) / 100 - abs q) ≤ 1 / 200) ∧
    (fetchDashboardData numberToString s (some trackingData)
        (some { notifications := some [noteRead, noteUnread, noteHalf] })).stats.totalSavings
      = "10.63" := by
  have htotal : ∀ l : List Notification, (fetchDashboardData numberToString s (some trackingData)
        (some { notifications := some l })).stats.totalSavings
      = JSNum.toFixed numberToString (binarySum (l.map savingsOf)) 2 := by
    intro l
    simp only [fetchDashboardData, Option.getD_some, foldl_savings, binarySum]
  refine ⟨htotal _, ?_, binarySum_eq_exactSum _, ?_, ?_⟩
  · intro others h
    have hmap : others.map savingsOf = notifications.map savingsOf := by
      have h2 := congrArg (List.map (fun v : JSVal =>
        match v with
        | JSVal.num (JSNum.fin q) => JSNum.fin q
        | JSVal.num (JSNum.inf neg) => JSNum.inf neg
        | _ => JSNum.zero)) h
      simpa [List.map_map, Function.comp_def, savingsOf] using h2
    rw [htotal, htotal, hmap]
  · intro q hq hlt
    refine ⟨JSNum.fixedInteger q.num.natAbs q.den 2, ?_, ?_⟩
    · rw [htotal, hq]
      have hrange : ¬ (10 ^ 21 * q.den ≤ q.num.natAbs) := by
        intro hge
        have hge' : ((10 : ℚ) ^ 21 * q.den) ≤ (q.num.natAbs : ℚ) := by exact_mod_cast hge
        have hd : (0 : ℚ) < q.den := by exact_mod_cast q.den_pos
        rw [abs_eq_natAbs_div, div_lt_iff₀ hd] at hlt
        linarith
      simp only [JSNum.toFixed, hrange, if_false, Rat.num_neg]
    · obtain ⟨hlo, hhi⟩ := fixedInteger_bounds q.num.natAbs q.den 2 q.den_pos
      rw [← abs_eq_natAbs_div] at hlo hhi
      rw [abs_le]
      constructor <;> linarith
  · rw [htotal]
    have hsum : binarySum ([noteRead, noteUnread, noteHalf].map savingsOf)
        = JSNum.fin (mkRat 85 8) := by decide!
    rw [hsum]
    rfl

/-! ## The local collection of tracked products -/

/-- C4: a successful `handleUpdateTargetPrice` relates the collection before
and after entry by entry, in the same order and so with the same length: an
entry with the given id gets `target_price` equal to the parsed float, an entry
with another id is unchanged, and in both cases every field other than
`target_price` is what it was. -/
theorem handleUpdateTargetPrice_ok (s : TrackingListState) (productId newTargetPrice : String) :
    (handleUpdateTargetPrice s productId newTargetPrice (Reply.ok ())).products.length
      = s.products.length ∧
    List.Forall₂
      (fun p q =>
        (p._id = productId → q.target_price = JSVal.num (parseFloat newTargetPrice)) ∧
        (p._id ≠ productId → q = p) ∧
        q._id = p._id ∧ q.product_name = p.product_name ∧ q.product_url = p.product_url ∧
        q.image_url = p.image_url ∧ q.platform = p.platform ∧
        q.current_price = p.current_price ∧ q.original_price = p.original_price ∧
        q.notifications_sent = p.notifications_sent ∧ q.created_at = p.created_at ∧
        q.user_email = p.user_email)
      s.products
      (handleUpdateTargetPrice s productId newTargetPrice (Reply.ok ())).products := by
  constructor
  · simp [handleUpdateTargetPrice]
  · simp only [handleUpdateTargetPrice]
    generalize s.products = l
    induction l with
    | nil => simp
    | cons p rest ih =>
      rw [List.map_cons]
      refine List.Forall₂.cons ?_ ih
      by_cases h : p._id = productId <;> simp [h]

/-- C5: after a confirmed and successful `handleUntrack` the collection holds
no entry with the given id, it is the old collection with entries left out
(so the order of the rest is kept), and every entry with another id occurs in
it as many times as before. -/
theorem handleUntrack_ok (s : TrackingListState) (productId : String) :
    (∀ p ∈ (handleUntrack s productId true (Reply.ok ())).products, p._id ≠ productId) ∧
    List.Sublist (handleUntrack s productId true (Reply.ok ())).products s.products ∧
    (∀ p : Product, p._id ≠ productId →
      (handleUntrack s productId true (Reply.ok ())).products.count p = s.products.count p) := by
  refine ⟨?_, ?_, ?_⟩
  · intro p hp
    simp [handleUntrack] at hp
    exact hp.2
  · simp [handleUntrack, List.filter_sublist]
  · intro p hp
    simp only [handleUntrack, Bool.not_true, Bool.false_eq_true, if_false]
    exact List.count_filter (by simpa using hp)

/-- C6: when the request of `handleUntrack` or of `handleUpdateTargetPrice`
fails, and when the untrack confirmation is declined, the collection
`products` is what it was; `handleTrackProduct`, whose request failed, leaves
the state of `TrackingList` as a whole, and every state variable of `Search`,
as it was. -/
theorem failure_keeps_products (s : TrackingListState) (v : Views)
    (productId newTargetPrice : String) (product : SearchProduct)
    (targetPrice userEmail : Option String) (err : RequestError) (reply : Reply Unit) :
    (handleUntrack s productId true (Reply.error err)).products = s.products ∧
    (handleUntrack s productId false reply).products = s.products ∧
    (handleUpdateTargetPrice s productId newTargetPrice (Reply.error err)).products
      = s.products ∧
    (Views.handleTrackProduct v product targetPrice userEmail (Reply.error err)).trackingList
      = v.trackingList ∧
    (handleTrackProduct v.search product targetPrice userEmail (Reply.error err)).results
      = v.search.results ∧
    (handleTrackProduct v.search product targetPrice userEmail (Reply.error err)).query
      = v.search.query ∧
    (handleTrackProduct v.search product targetPrice userEmail (Reply.error err)).recommendations
      = v.search.recommendations ∧
    (handleTrackProduct v.search product targetPrice userEmail (Reply.error err)).loading
      = v.search.loading ∧
    (handleTrackProduct v.search product targetPrice userEmail (Reply.error err)).error
      = v.search.error := by
  refine ⟨rfl, rfl, rfl, rfl, ?_, ?_, ?_, ?_, ?_⟩ <;>
  · unfold handleTrackProduct
    cases targetPrice <;> cases userEmail <;> simp <;> split_ifs <;> rfl

/-! ## The session -/

/-- The mount effect calls the verify endpoint exactly when the stored token
is not the empty string. -/
theorem restoreSession_requests_iff (stored : String) (verify : Reply VerifyData) :
    (restoreSession (SessionState.init (some stored)) verify).requests ≠ [] ↔ stored ≠ "" := by
  unfold restoreSession SessionState.init
  by_cases h : stored = ""
  · simp [h]
  · cases verify with
    | ok data => cases hv : data.valid <;> simp [h, hv]
    | error err => simp [h]

/-- C7: for every stored credential, if the verify call is made and returns
`valid = false` or fails, restoring the session ends with no identity, the
stored credential removed, the `Authorization` header removed and the loading
gate cleared, after that one request; a rejected call and a `valid = false`
answer give the same final state, from any state. -/
theorem restoreSession_failure (stored : String) (verify : Reply VerifyData)
    (hcall : (restoreSession (SessionState.init (some stored)) verify).requests ≠ [])
    (hfail : ∀ data, verify = Reply.ok data → data.valid = false) :
    restoreSession (SessionState.init (some stored)) verify =
      { token := none, authorization := none, user := none, loading := false,
        requests := [Request.authVerify (some ("Bearer " ++ stored))] } ∧
    ∀ (s : SessionState) (data : VerifyData) (err : RequestError), data.valid = false →
      restoreSession s (Reply.ok data) = restoreSession s (Reply.error err) := by
  have hne : stored ≠ "" := (restoreSession_requests_iff stored verify).1 hcall
  constructor
  · cases verify with
    | ok data =>
      have hv := hfail data rfl
      simp [restoreSession, SessionState.init, hne, hv]
    | error err => simp [restoreSession, SessionState.init, hne]
  · intro s data err hv
    unfold restoreSession
    cases s.token with
    | none => rfl
    | some token => by_cases h : token = "" <;> simp [h, hv]

/-- C7 at the stored credential `abc` with a verify answer `valid = false`. -/
theorem restoreSession_failure_witness :
    (restoreSession (SessionState.init (some "abc"))
        (Reply.ok { valid := false, user := none })).requests ≠ [] ∧
    restoreSession (SessionState.init (some "abc")) (Reply.ok { valid := false, user := none }) =
      { token := none, authorization := none, user := none, loading := false,
        requests := [Request.authVerify (some "Bearer abc")] } :=
  ⟨by decide,
   (restoreSession_failure "abc" (Reply.ok { valid := false, user := none }) (by decide)
      (by intro data h; cases h; rfl)).1⟩

/-- C8: when no credential is stored, restoring the session ends with no
identity, no request issued, no `Authorization` header and the loading gate
cleared, whatever the verify endpoint would have answered. -/
theorem restoreSession_no_credential (verify : Reply VerifyData) :
    restoreSession (SessionState.init none) verify =
      { token := none, authorization := none, user := none, loading := false,
        requests := [] } := by
  rfl

/-- C9: for every stored credential, if the verify call is made and returns
`valid = true` with user `u`, restoring the session ends with identity `u`, the
stored credential unchanged, the `Authorization` header carrying that
credential and the loading gate cleared, after that one request. -/
theorem restoreSession_valid (stored : String) (u : Identity)
    (hcall : (restoreSession (SessionState.init (some stored))
        (Reply.ok { valid := true, user := some u })).requests ≠ []) :
    restoreSession (SessionState.init (some stored))
        (Reply.ok { valid := true, user := some u }) =
      { token := some stored, authorization := some ("Bearer " ++ stored), user := some u,
        loading := false, requests := [Request.authVerify (some ("Bearer " ++ stored))] } := by
  have hne : stored ≠ "" := (restoreSession_requests_iff stored _).1 hcall
  simp [restoreSession, SessionState.init, hne]

/-- C9 at the stored credential `abc` and the user `u1`. -/
theorem restoreSession_valid_witness :
    (restoreSession (SessionState.init (some "abc"))
        (Reply.ok { valid := true, user := some { id := "u1", email := "a@b.c" } })).requests
      ≠ [] ∧
    restoreSession (SessionState.init (some "abc"))
        (Reply.ok { valid := true, user := some { id := "u1", email := "a@b.c" } }) =
      { token := some "abc", authorization := some "Bearer abc",
        user := some { id := "u1", email := "a@b.c" },
        loading := false, requests := [Request.authVerify (some "Bearer abc")] } :=
  ⟨by decide, restoreSession_valid "abc" { id := "u1", email := "a@b.c" } (by decide)⟩

/-- C10: for every identity, credential and prior session state,
`login(identity, credential)` leaves the stored credential equal to the
credential, the `Authorization` header equal to `Bearer ` followed by it and
the held identity equal to the identity; it issues no request and leaves the
loading gate alone, and it does so for every credential, the empty one
included. -/
theorem login_sets_session (s : SessionState) (identity : Identity) (credential : String) :
    (login s (some identity) credential).token = some credential ∧
    (login s (some identity) credential).authorization = some ("Bearer " ++ credential) ∧
    (login s (some identity) credential).user = some identity ∧
    (login s (some identity) credential).requests = s.requests ∧
    (login s (some identity) credential).loading = s.loading := by
  exact ⟨rfl, rfl, rfl, rfl, rfl⟩

/-- C11: for every session state, `logout()` leaves no stored credential, no
`Authorization` header and no identity, issues no request and leaves the
loading gate alone; `login` followed by `logout` ends with none of the three,
whatever the arguments of `login`. -/
theorem logout_clears_session (s : SessionState) (userData : Option Identity)
    (token : String) :
    (logout s).token = none ∧ (logout s).authorization = none ∧ (logout s).user = none ∧
    (logout s).requests = s.requests ∧ (logout s).loading = s.loading ∧
    (logout (login s userData token)).token = none ∧
    (logout (login s userData token)).authorization = none ∧
    (logout (login s userData token)).user = none ∧
    logout (login s userData token) = logout s := by
  exact ⟨rfl, rfl, rfl, rfl, rfl, rfl, rfl, rfl, rfl⟩

/-! ## The fallback forecast -/

/-- The constants of the two fallback blocks for a finite price `c` and a draw
`r`, in the arithmetic of the rationals. -/
theorem fallback_finite (numberToString : ℚ → String) (product : SearchProduct) (c r : ℚ)
    (hprice : product.price.parseFloat = JSNum.fin c) :
    (fallbackElse numberToString product r).currentPrice = JSNum.fin c ∧
    (fallbackElse numberToString product r).variation = JSNum.fin ((r - 1 / 2) * (1 / 10)) ∧
    (fallbackElse numberToString product r).predictedPrice
      = JSNum.fin (c * (1 + (r - 1 / 2) * (1 / 10))) ∧
    fallbackCatch numberToString product r = fallbackElse numberToString product r := by
  refine ⟨?_, ?_, ?_, rfl⟩
  · simp [fallbackElse, hprice]
  · simp [fallbackElse, JSNum.mul, JSNum.sub, JSNum.add, JSNum.neg, sub_eq_add_neg]
  · simp [fallbackElse, hprice, JSNum.mul, JSNum.sub, JSNum.add, JSNum.neg, sub_eq_add_neg]

/-- C12: for every finite price `c > 0` and every draw `r` in `[0, 1)`, the
predicted price of either fallback block is `c * (1 + (r - 0.5) * 0.1)` and
lies between `0.95 * c` and `1.05 * c`. -/
theorem fallback_predictedPrice_bounds (numberToString : ℚ → String)
    (product : SearchProduct) (c r : ℚ)
    (hprice : product.price.parseFloat = JSNum.fin c) (hc : 0 < c)
    (hr0 : 0 ≤ r) (hr1 : r < 1) :
    (fallbackElse numberToString product r).predictedPrice
      = JSNum.fin (c * (1 + (r - 1 / 2) * (1 / 10))) ∧
    (fallbackCatch numberToString product r).predictedPrice
      = JSNum.fin (c * (1 + (r - 1 / 2) * (1 / 10))) ∧
    95 / 100 * c ≤ c * (1 + (r - 1 / 2) * (1 / 10)) ∧
    c * (1 + (r - 1 / 2) * (1 / 10)) ≤ 105 / 100 * c ∧
    JSNum.le (JSNum.mul (JSNum.fin (95 / 100)) (fallbackElse numberToString product r).currentPrice)
      (fallbackElse numberToString product r).predictedPrice = true ∧
    JSNum.le (fallbackElse numberToString product r).predictedPrice
      (JSNum.mul (JSNum.fin (105 / 100)) (fallbackElse numberToString product r).currentPrice)
      = true := by
  obtain ⟨hcur, -, hpred, hsame⟩ := fallback_finite numberToString product c r hprice
  have hlo : 95 / 100 * c ≤ c * (1 + (r - 1 / 2) * (1 / 10)) := by
    nlinarith [mul_nonneg hc.le hr0]
  have hhi : c * (1 + (r - 1 / 2) * (1 / 10)) ≤ 105 / 100 * c := by
    nlinarith [mul_pos hc (sub_pos.2 hr1)]
  refine ⟨hpred, by rw [hsame, hpred], hlo, hhi, ?_, ?_⟩
  · rw [hcur, hpred]
    simpa [JSNum.mul, JSNum.le] using hlo
  · rw [hcur, hpred]
    simpa [JSNum.mul, JSNum.le] using hhi

/-- C12 at the search result priced `100` and the draw `0`: the predicted
price is `95`. -/
theorem fallback_predictedPrice_bounds_witness :
    searchLamp.price.parseFloat = JSNum.fin 100 ∧ (0 : ℚ) < 100 ∧ (0 : ℚ) ≤ 0 ∧ (0 : ℚ) < 1 ∧
    (95 : ℚ) / 100 * 100 ≤ 100 * (1 + (0 - 1 / 2) * (1 / 10)) ∧
    (100 : ℚ) * (1 + (0 - 1 / 2) * (1 / 10)) ≤ 105 / 100 * 100 :=
  ⟨rfl, by norm_num, le_refl 0, by norm_num,
   (fallback_predictedPrice_bounds (fun _ => "") searchLamp 100 0 rfl (by norm_num)
      (le_refl 0) (by norm_num)).2.2.1,
   (fallback_predictedPrice_bounds (fun _ => "") searchLamp 100 0 rfl (by norm_num)
      (le_refl 0) (by norm_num)).2.2.2.1⟩

/-- C13, as the code has it: for every product and every draw, either fallback
block reports the trend `increasing` if and only if the variation is positive,
that is if and only if the draw exceeds `0.5`, and `decreasing` otherwise; and
for a current price above `0`, a predicted price greater than the current
price occurs only with the trend `increasing`. -/
theorem fallback_trend_of_variation (numberToString : ℚ → String) (product : SearchProduct)
    (r : ℚ) :
    ((fallbackElse numberToString product r).trend = "increasing" ↔
      JSNum.lt JSNum.zero (fallbackElse numberToString product r).variation = true) ∧
    ((fallbackElse numberToString product r).trend = "decreasing" ↔
      JSNum.lt JSNum.zero (fallbackElse numberToString product r).variation = false) ∧
    ((fallbackElse numberToString product r).trend = "increasing" ↔ 1 / 2 < r) ∧
    (JSNum.lt JSNum.zero (fallbackElse numberToString product r).currentPrice = true →
      JSNum.lt (fallbackElse numberToString product r).currentPrice
        (fallbackElse numberToString product r).predictedPrice = true →
      (fallbackElse numberToString product r).trend = "increasing") ∧
    fallbackCatch numberToString product r = fallbackElse numberToString product r := by
  have hvar : (fallbackElse numberToString product r).variation
      = JSNum.fin ((r - 1 / 2) * (1 / 10)) := by
    simp [fallbackElse, JSNum.mul, JSNum.sub, JSNum.add, JSNum.neg, sub_eq_add_neg]
  have hv : JSNum.lt JSNum.zero (fallbackElse numberToString product r).variation = true
      ↔ 1 / 2 < r := by
    rw [hvar]
    simp only [JSNum.lt, JSNum.zero, decide_eq_true_eq]
    constructor <;> intro h <;> linarith
  have htrend : (fallbackElse numberToString product r).trend =
      if JSNum.lt JSNum.zero (fallbackElse numberToString product r).variation = true
      then "increasing" else "decreasing" := rfl
  have hpred : (fallbackElse numberToString product r).predictedPrice =
      JSNum.mul (fallbackElse numberToString product r).currentPrice
        (JSNum.add (JSNum.fin 1) (fallbackElse numberToString product r).variation) := rfl
  have hinc : (fallbackElse numberToString product r).trend = "increasing" ↔
      JSNum.lt JSNum.zero (fallbackElse numberToString product r).variation = true := by
    rw [htrend]
    cases JSNum.lt JSNum.zero (fallbackElse numberToString product r).variation <;> decide
  have hdec : (fallbackElse numberToString product r).trend = "decreasing" ↔
      JSNum.lt JSNum.zero (fallbackElse numberToString product r).variation = false := by
    rw [htrend]
    cases JSNum.lt JSNum.zero (fallbackElse numberToString product r).variation <;> decide
  refine ⟨hinc, hdec, hinc.trans hv, ?_, rfl⟩
  intro hpos hlt
  rw [hinc.trans hv]
  rw [hpred, hvar] at hlt
  by_contra hr
  push_neg at hr
  have hle : 1 + (r - 1 / 2) * (1 / 10) ≤ 1 := by linarith
  cases hc : (fallbackElse numberToString product r).currentPrice with
  | nan => rw [hc] at hpos; simp [JSNum.lt, JSNum.zero] at hpos
  | fin c =>
    rw [hc] at hpos hlt
    have hc0 : 0 < c := by simpa [JSNum.lt, JSNum.zero] using hpos
    have : c < c * (1 + (r - 1 / 2) * (1 / 10)) := by
      simpa [JSNum.lt, JSNum.add, JSNum.mul] using hlt
    nlinarith
  | inf neg =>
    rw [hc] at hlt
    cases neg
    · simp only [JSNum.add, JSNum.mul] at hlt
      split_ifs at hlt <;> simp [JSNum.lt] at hlt
    · rw [hc] at hpos
      simp [JSNum.lt, JSNum.zero] at hpos

/-- C13, as stated, fails in two ways. For the search result whose price is
the text `Infinity` and the draw `0.9`, the current price is above `0` and the
trend is `increasing`, while the predicted price, `Infinity` as well, is not
greater than the current price. For the price `100` and the draw
`0.5 + 2^-53`, a binary64 value of `[0, 1)`, the variation the engine computes
is positive, so the trend is `increasing`, while `1 + variation` rounds to `1`
and the predicted price is the current price `100`. -/
theorem fallback_trend_not_iff :
    JSNum.lt JSNum.zero (fallbackElse (fun _ => "") infinitePriceResult (9 / 10)).currentPrice
      = true ∧
    (fallbackElse (fun _ => "") infinitePriceResult (9 / 10)).trend = "increasing" ∧
    (fallbackElse (fun _ => "") infinitePriceResult (9 / 10)).predictedPrice
      = JSNum.inf false ∧
    JSNum.lt (fallbackElse (fun _ => "") infinitePriceResult (9 / 10)).currentPrice
      (fallbackElse (fun _ => "") infinitePriceResult (9 / 10)).predictedPrice = false ∧
    JSNum.round64 (mkRat (2 ^ 52 + 1) (2 ^ 53)) = JSNum.fin (mkRat (2 ^ 52 + 1) (2 ^ 53)) ∧
    JSNum.lt JSNum.zero (fallbackRounded (JSNum.fin 100) (mkRat (2 ^ 52 + 1) (2 ^ 53))).1 = true ∧
    (fallbackElse (fun _ => "") searchLamp (mkRat (2 ^ 52 + 1) (2 ^ 53))).trend = "increasing" ∧
    (fallbackRounded (JSNum.fin 100) (mkRat (2 ^ 52 + 1) (2 ^ 53))).2 = JSNum.fin 100 := by
  decide!

/-- C14, as the code has it: in either fallback block the trend is
`increasing` or `decreasing`, and the recommendation is exactly
`Buy now - Price expected to rise` when it is `increasing` and exactly
`Wait to buy - Price expected to drop` when it is `decreasing` (a capital `P`
in both). -/
theorem fallback_recommendation (numberToString : ℚ → String) (product : SearchProduct)
    (r : ℚ) :
    (((fallbackElse numberToString product r).trend = "increasing" ∧
        (fallbackElse numberToString product r).recommendation
          = "Buy now - Price expected to rise") ∨
      ((fallbackElse numberToString product r).trend = "decreasing" ∧
        (fallbackElse numberToString product r).recommendation
          = "Wait to buy - Price expected to drop")) ∧
    (((fallbackCatch numberToString product r).trend = "increasing" ∧
        (fallbackCatch numberToString product r).recommendation
          = "Buy now - Price expected to rise") ∨
      ((fallbackCatch numberToString product r).trend = "decreasing" ∧
        (fallbackCatch numberToString product r).recommendation
          = "Wait to buy - Price expected to drop")) := by
  have h : ∀ f : FallbackForecast, f = fallbackElse numberToString product r →
      (f.trend = "increasing" ∧ f.recommendation = "Buy now - Price expected to rise") ∨
      (f.trend = "decreasing" ∧ f.recommendation = "Wait to buy - Price expected to drop") := by
    intro f hf
    subst hf
    simp only [fallbackElse]
    cases JSNum.lt JSNum.zero
      (JSNum.mul (JSNum.sub (JSNum.fin r) (JSNum.fin (1 / 2))) (JSNum.fin (1 / 10))) <;> simp
  exact ⟨h _ rfl, h _ rfl⟩

/-- C14, as stated, fails: for the search result priced `100` and the draw
`0.9` the trend is `increasing`, and the recommendation is not the text
`Buy now - price expected to rise`; for the draw `0.1` the trend is
`decreasing`, and the recommendation is not the text
`Wait to buy - price expected to drop`. -/
theorem fallback_recommendation_letter_case :
    (fallbackElse (fun _ => "") searchLamp (9 / 10)).trend = "increasing" ∧
    (fallbackElse (fun _ => "") searchLamp (9 / 10)).recommendation
      ≠ "Buy now - price expected to rise" ∧
    (fallbackElse (fun _ => "") searchLamp (1 / 10)).trend = "decreasing" ∧
    (fallbackElse (fun _ => "") searchLamp (1 / 10)).recommendation
      ≠ "Wait to buy - price expected to drop" := by
  have h9 : JSNum.lt JSNum.zero
      (JSNum.mul (JSNum.sub (JSNum.fin (9 / 10)) (JSNum.fin (1 / 2))) (JSNum.fin (1 / 10)))
      = true := by
    norm_num [JSNum.lt, JSNum.zero, JSNum.mul, JSNum.sub, JSNum.add, JSNum.neg]
  have h1 : JSNum.lt JSNum.zero
      (JSNum.mul (JSNum.sub (JSNum.fin (1 / 10)) (JSNum.fin (1 / 2))) (JSNum.fin (1 / 10)))
      = false := by
    norm_num [JSNum.lt, JSNum.zero, JSNum.mul, JSNum.sub, JSNum.add, JSNum.neg]
  refine ⟨?_, ?_, ?_, ?_⟩
  · simp only [fallbackElse, h9, if_true]
  · simp only [fallbackElse, h9, if_true]; decide
  · simp only [fallbackElse, h1]; simp
  · simp only [fallbackElse, h1]; decide

/-! ## The forecast and live-price handlers -/

/-- C15: `handlePriceForecast` shows the remote trend, predicted price, change
and recommendation, as the response carries them, exactly when the response
status is `success`; for any other status, for a rejected request and for a
`null` body it shows the trend, predicted price, change percent and
recommendation of a fallback block; the two fallback blocks give the same
record, computed from the product price and the draw alone. The texts are
written out at the end for a success response, for a response with the status
`error` at the draw `0.75`, for a rejected request at the draw `0.25`, all
three for a product priced `100`, and for a `null` body with a product priced
`64` at the draw `25/256`. -/
theorem handlePriceForecast_source (numberToString : ℚ → String) (s : SearchState)
    (product : SearchProduct) (forecast : ForecastData) (err : RequestError) (r : ℚ) :
    (forecast.status = JSText.str "success" →
      handlePriceForecast numberToString s product (Reply.ok (some forecast)) r =
        Except.ok { s with
          requests := s.requests ++ [Request.predictPrice product.title product.price 7],
          alerts := s.alerts ++
            ["🔮 AI Price Forecast (7 days)\n\n" ++
              (if forecast.trend = JSText.str "increasing" then "📈" else "📉") ++
              " Trend: " ++ forecast.trend.toText ++
              "\n💰 Current: $" ++ product.price.toText numberToString ++
              "\n🎯 Predicted: $" ++ forecast.predicted_price.toText numberToString ++
              "\n💰 Change: " ++ forecast.price_change.toText numberToString ++
              "%\n\n💡 " ++ forecast.recommendation.toText] }) ∧
    (forecast.status ≠ JSText.str "success" →
      handlePriceForecast numberToString s product (Reply.ok (some forecast)) r =
        Except.ok { s with
          requests := s.requests ++ [Request.predictPrice product.title product.price 7],
          alerts := s.alerts ++
            ["🔮 AI Price Forecast (7 days)\n\n" ++
              (fallbackElse numberToString product r).trendIcon ++
              " Trend: " ++ (fallbackElse numberToString product r).trend ++
              "\n💰 Current: $" ++
              (fallbackElse numberToString product r).currentPrice.toFixed numberToString 2 ++
              "\n🎯 Predicted: $" ++
              (fallbackRounded product.price.parseFloat r).2.toFixed numberToString 2 ++
              "\n💰 Change: " ++
              (JSNum.mul64 (fallbackRounded product.price.parseFloat r).1
                (JSNum.fin 100)).toFixed numberToString 1 ++
              "%\n\n💡 " ++ (fallbackElse numberToString product r).recommendation] }) ∧
    (∀ reply, reply = Reply.error err ∨ reply = Reply.ok none →
      handlePriceForecast numberToString s product reply r =
        Except.ok { s with
          requests := s.requests ++ [Request.predictPrice product.title product.price 7],
          alerts := s.alerts ++
            ["🔮 AI Price Forecast (7 days)\n\n" ++
              (fallbackCatch numberToString product r).trendIcon ++
              " Trend: " ++ (fallbackCatch numberToString product r).trend ++
              "\n💰 Current: $" ++
              (fallbackCatch numberToString product r).currentPrice.toFixed numberToString 2 ++
              "\n🎯 Predicted: $" ++
              (fallbackRounded product.price.parseFloat r).2.toFixed numberToString 2 ++
              "\n💰 Change: " ++
              (JSNum.mul64 (fallbackRounded product.price.parseFloat r).1
                (JSNum.fin 100)).toFixed numberToString 1 ++
              "%\n\n💡 " ++ (fallbackCatch numberToString product r).recommendation] }) ∧
    fallbackCatch numberToString product r = fallbackElse numberToString product r ∧
    (fallbackElse numberToString product r).currentPrice = product.price.parseFloat ∧
    (fallbackElse numberToString product r).variation =
      JSNum.mul (JSNum.sub (JSNum.fin r) (JSNum.fin (1 / 2))) (JSNum.fin (1 / 10)) ∧
    (fallbackElse numberToString product r).predictedPrice =
      JSNum.mul product.price.parseFloat
        (JSNum.add (JSNum.fin 1) (fallbackElse numberToString product r).variation) ∧
    (∀ other : SearchProduct, other.price = product.price →
      fallbackElse numberToString other r = fallbackElse numberToString product r) ∧
    handlePriceForecast (fun _ => "") lampSearch searchLampText
        (Reply.ok (some remoteForecast)) (9 / 10) =
      Except.ok { lampSearch with
        requests := [Request.predictPrice "Desk lamp" (JSValOrString.str "100") 7],
        alerts := ["🔮 AI Price Forecast (7 days)\n\n📉 Trend: decreasing\n💰 Current: $100" ++
          "\n🎯 Predicted: $94.5\n💰 Change: -5.5%\n\n💡 Wait for a better price"] } ∧
    handlePriceForecast (fun _ => "") lampSearch searchLampText
        (Reply.ok (some failedForecast)) (3 / 4) =
      Except.ok { lampSearch with
        requests := [Request.predictPrice "Desk lamp" (JSValOrString.str "100") 7],
        alerts := ["🔮 AI Price Forecast (7 days)\n\n📈 Trend: increasing\n💰 Current: $100.00" ++
          "\n🎯 Predicted: $102.50\n💰 Change: 2.5%\n\n💡 Buy now - Price expected to rise"] } ∧
    handlePriceForecast (fun _ => "") lampSearch searchLampText
        (Reply.error networkError) (1 / 4) =
      Except.ok { lampSearch with
        requests := [Request.predictPrice "Desk lamp" (JSValOrString.str "100") 7],
        alerts := ["🔮 AI Price Forecast (7 days)\n\n📉 Trend: decreasing\n💰 Current: $100.00" ++
          "\n🎯 Predicted: $97.50\n💰 Change: -2.5%\n\n💡 Wait to buy - Price expected to drop"] } ∧
    handlePriceForecast (fun _ => "") lampSearch
        { searchLampText with price := JSValOrString.str "64" } (Reply.ok none) (25 / 256) =
      Except.ok { lampSearch with
        requests := [Request.predictPrice "Desk lamp" (JSValOrString.str "64") 7],
        alerts := ["🔮 AI Price Forecast (7 days)\n\n📉 Trend: decreasing\n💰 Current: $64.00" ++
          "\n🎯 Predicted: $61.42\n💰 Change: -4.0%\n\n💡 Wait to buy - Price expected to drop"] } := by
  refine ⟨?_, ?_, ?_, rfl, rfl, rfl, rfl, ?_, ?_, ?_, ?_, ?_⟩
  · intro h
    simp [handlePriceForecast, h, remoteAlert]
  · intro h
    simp [handlePriceForecast, h, fallbackElse]
  · rintro reply (rfl | rfl) <;> rfl
  · intro other h
    simp only [fallbackElse, h]
  · decide!
  · decide!
  · decide!
  · decide!

/-- C16: for every product and every outcome of the remote call (a body with
any status, a `null` body, a rejected request), `handlePriceForecast` and
`handleRealtimePrice` return a state and let no error out; the live-price
handler ends with `loading` cleared. -/
theorem handlers_absorb_errors (numberToString : ℚ → String) (s : SearchState)
    (product : SearchProduct) (forecastReply : Reply (Option ForecastData))
    (realtimeReply : Reply (Option RealtimeData)) (r : ℚ) :
    (∃ s1, handlePriceForecast numberToString s product forecastReply r = Except.ok s1) ∧
    (∃ s2, handleRealtimePrice numberToString s product realtimeReply = Except.ok s2 ∧
      s2.loading = false) := by
  constructor
  · unfold handlePriceForecast
    rcases forecastReply with (_ | forecast) | err
    · exact ⟨_, rfl⟩
    · by_cases h : forecast.status = JSText.str "success" <;> simp [h]
    · exact ⟨_, rfl⟩
  · unfold handleRealtimePrice
    rcases realtimeReply with (_ | data) | err
    · exact ⟨_, rfl, rfl⟩
    · by_cases h : data.status = some "success" <;> simp [h, Except.map]
    · exact ⟨_, rfl, rfl⟩

/-- The direction text of `handleRealtimePrice` for finite prices: the
difference is `live - cached`, an increase is shown when it is positive, a
decrease of its magnitude when it is negative, and `No change` when the two
prices are equal. -/
theorem diffText_finite (numberToString : ℚ → String) (product : SearchProduct)
    (currentPrice : JSValOrString) (live cached : ℚ)
    (hlive : currentPrice.toNumber = JSNum.fin live)
    (hcached : product.price.toNumber = JSNum.fin cached) :
    priceDiff currentPrice product = JSNum.fin (live - cached) ∧
    (0 < live - cached → diffText numberToString (priceDiff currentPrice product)
      = "📈 +$" ++ (JSNum.fin (live - cached)).toFixed numberToString 2) ∧
    (live - cached < 0 → diffText numberToString (priceDiff currentPrice product)
      = "📉 -$" ++ (JSNum.fin |live - cached|).toFixed numberToString 2) ∧
    (live = cached → diffText numberToString (priceDiff currentPrice product)
      = "🟢 No change") := by
  have hd : priceDiff currentPrice product = JSNum.fin (live - cached) := by
    simp [priceDiff, hlive, hcached, JSNum.sub, JSNum.add, JSNum.neg, sub_eq_add_neg]
  refine ⟨hd, ?_, ?_, ?_⟩
  · intro h
    simp [hd, diffText, JSNum.lt, JSNum.zero, h]
  · intro h
    have h2 : ¬ (0 < live - cached) := by linarith
    simp [hd, diffText, JSNum.lt, JSNum.zero, h, h2, JSNum.abs]
  · intro h
    simp [hd, diffText, JSNum.lt, JSNum.zero, h]

/-- C17 fails on the code: for the search result whose price is the text
`N/A` and a success response with live price `10`, the difference is `NaN`
and the handler reports `No change`, although the live price is not the cached
price. -/
theorem handleRealtimePrice_no_change_without_price :
    livePriceTen.price ≠ unpricedResult.price ∧
    priceDiff livePriceTen.price unpricedResult = JSNum.nan ∧
    ∀ numberToString : ℚ → String,
      diffText numberToString (priceDiff livePriceTen.price unpricedResult) = "🟢 No change" ∧
      handleRealtimePrice numberToString unpricedSearch unpricedResult
          (Reply.ok (some livePriceTen)) =
        Except.ok { unpricedSearch with
          requests := [Request.realtimePrice unpricedResult.url unpricedResult.price],
          alerts := ["🔄 Live Price Update\n\n💰 Current Live Price: $" ++
            (JSNum.fin 10).toString numberToString ++
            "\n📋 Cached Price: $" ++ "N/A" ++ "\n" ++ "🟢 No change" ++
            "\n\n🛍️ Source: " ++ "Shop"] } := by
  have hd : priceDiff livePriceTen.price unpricedResult = JSNum.nan := by decide
  refine ⟨by decide, hd, fun numberToString => ?_⟩
  have ht : diffText numberToString (priceDiff livePriceTen.price unpricedResult)
      = "🟢 No change" := by
    rw [hd]; rfl
  refine ⟨ht, ?_⟩
  have ht2 : diffText numberToString
      (priceDiff (JSValOrString.val (JSVal.num (JSNum.fin 10))) unpricedResult)
      = "🟢 No change" := ht
  simp only [handleRealtimePrice, livePriceTen, if_true, ht2]
  rfl

/-! ## The price status, continued -/

/-- Whenever `b < a` holds, `a <= b` fails and `a - b` is positive. -/
theorem jsSub_pos (a b : JSNum) (h : JSNum.lt b a = true) :
    JSNum.le a b = false ∧ JSNum.lt JSNum.zero (JSNum.sub a b) = true := by
  cases a <;> cases b <;>
    simp_all [JSNum.le, JSNum.lt, JSNum.sub, JSNum.add, JSNum.neg, JSNum.zero]

/-- C18: for every tracked product whose target price is set (truthy) and
whose `current_price` is greater than `target_price`, `getPriceStatus` returns
the above result, status `warning`, with the message `$`, the amount
`current_price - target_price` to two decimals, and ` above target`; that
amount is strictly positive. -/
theorem getPriceStatus_above (numberToString : ℚ → String) (p : Product)
    (hset : p.target_price.toBoolean = true)
    (habove : JSVal.lt p.target_price p.current_price = true) :
    getPriceStatus numberToString p =
      some { status := "warning",
             message := "$" ++
               (JSVal.sub p.current_price p.target_price).toFixed numberToString 2 ++
               " above target" } ∧
    JSNum.lt JSNum.zero (JSVal.sub p.current_price p.target_price) = true ∧
    (∀ c t : ℚ, p.current_price = JSVal.num (JSNum.fin c) →
      p.target_price = JSVal.num (JSNum.fin t) →
      JSVal.sub p.current_price p.target_price = JSNum.fin (c - t) ∧ 0 < c - t) := by
  obtain ⟨hle, hpos⟩ := jsSub_pos _ _ habove
  refine ⟨?_, hpos, ?_⟩
  · have hle2 : JSVal.le p.current_price p.target_price = false := hle
    simp [getPriceStatus, hset, hle2]
  · intro c t hc ht
    have hlt : t < c := by
      simpa [JSVal.lt, hc, ht, JSVal.toNumber, JSNum.lt] using habove
    refine ⟨?_, sub_pos.2 hlt⟩
    simp [hc, ht, JSVal.sub, JSVal.toNumber, JSNum.sub, JSNum.add, JSNum.neg, sub_eq_add_neg]

/-- C18 at the product tracked at `100` with target `90`: the message is
`$10.00 above target`. -/
theorem getPriceStatus_above_witness :
    lampAt100.target_price.toBoolean = true ∧
    JSVal.lt lampAt100.target_price lampAt100.current_price = true ∧
    getPriceStatus (fun _ => "") lampAt100 =
      some { status := "warning",
             message := "$" ++
               (JSVal.sub lampAt100.current_price lampAt100.target_price).toFixed
                 (fun _ => "") 2 ++
               " above target" } :=
  ⟨by decide, by decide, (getPriceStatus_above (fun _ => "") lampAt100 (by decide) (by decide)).1⟩

/-- C19: for every tracked product whose `target_price` is missing, `null` or
`0` (or any other falsy value), `getPriceStatus` returns `null` whatever the
current price is; for every product whose target price is set (truthy) it
returns a result whose status is `success` or `warning`, and not both. -/
theorem getPriceStatus_none_iff (numberToString : ℚ → String) (p : Product) :
    (p.target_price = JSVal.undefined ∨ p.target_price = JSVal.null ∨
        p.target_price = JSVal.num (JSNum.fin 0) →
      getPriceStatus numberToString p = none) ∧
    (getPriceStatus numberToString p = none ↔ p.target_price.toBoolean = false) ∧
    (p.target_price.toBoolean = true →
      ∃ st, getPriceStatus numberToString p = some st ∧
        ((st.status = "success" ∧ st.status ≠ "warning" ∧
            JSVal.le p.current_price p.target_price = true) ∨
         (st.status = "warning" ∧ st.status ≠ "success" ∧
            JSVal.le p.current_price p.target_price = false))) := by
  refine ⟨?_, ?_, ?_⟩
  · rintro (h | h | h) <;> simp [getPriceStatus, h, JSVal.toBoolean, JSNum.toBoolean]
  · unfold getPriceStatus
    cases ht : p.target_price.toBoolean <;>
      cases hle : JSVal.le p.current_price p.target_price <;> simp
  · intro hset
    unfold getPriceStatus
    cases hle : JSVal.le p.current_price p.target_price <;> simp [hset]

/-- C20: the product tracked at `100` with target `90` has the above status
with message `$10.00 above target`; a successful `handleUpdateTargetPrice` of it
to `110` leaves one local entry, the same product with target `110`, whose
status is the reached one with message `Target reached! Save $10.00`. -/
theorem scenario_update_target (numberToString : ℚ → String) :
    getPriceStatus numberToString lampAt100 =
      some { status := "warning", message := "$10.00 above target" } ∧
    (handleUpdateTargetPrice lampTracked "p1" "110" (Reply.ok ())).products =
      [{ lampAt100 with target_price := JSVal.num (JSNum.fin 110) }] ∧
    (handleUpdateTargetPrice lampTracked "p1" "110" (Reply.ok ())).products.map
        (getPriceStatus numberToString) =
      [some { status := "success", message := "Target reached! Save $10.00" }] := by
  have hparse : parseFloat "110" = JSNum.fin 110 := by decide
  have hproducts : (handleUpdateTargetPrice lampTracked "p1" "110" (Reply.ok ())).products =
      [{ lampAt100 with target_price := JSVal.num (JSNum.fin 110) }] := by
    simp [handleUpdateTargetPrice, lampTracked, hparse, lampAt100]
  have hfix : JSNum.toFixed numberToString (JSNum.fin 10) 2 = "10.00" := rfl
  have hbefore : JSVal.sub lampAt100.current_price lampAt100.target_price = JSNum.fin 10 := by
    norm_num [JSVal.sub, lampAt100, JSVal.toNumber, JSNum.sub, JSNum.add, JSNum.neg]
  have hafter : JSVal.sub (JSVal.num (JSNum.fin 110)) lampAt100.current_price = JSNum.fin 10 := by
    norm_num [JSVal.sub, lampAt100, JSVal.toNumber, JSNum.sub, JSNum.add, JSNum.neg]
  refine ⟨?_, hproducts, ?_⟩
  · have hset : lampAt100.target_price.toBoolean = true := by decide
    have hle : JSVal.le lampAt100.current_price lampAt100.target_price = false := by decide
    simp only [getPriceStatus, hset, hle, hbefore, hfix]
    rfl
  · rw [hproducts]
    have hset : (JSVal.num (JSNum.fin 110)).toBoolean = true := by decide
    have hle : JSVal.le lampAt100.current_price (JSVal.num (JSNum.fin 110)) = true := by decide
    simp only [List.map, getPriceStatus, hset, hle, hafter, hfix]
    rfl

/-! ## The dashboard statistics, continued -/

/-- The sum in the arithmetic of the rationals, started from any value, does
not depend on the order of the list. -/
theorem foldl_add_perm {l l' : List JSNum} (h : l.Perm l') (a : JSNum) :
    l.foldl JSNum.add a = l'.foldl JSNum.add a := by
  induction h generalizing a with
  | nil => rfl
  | cons x _ ih => exact ih _
  | swap x y l =>
    simp only [List.foldl_cons]
    rw [jsAdd_assoc, jsAdd_comm y x, ← jsAdd_assoc]
  | trans _ _ ih1 ih2 => exact (ih1 a).trans (ih2 a)

/-- No partial sum of the savings `10.125` and `0.5` needs rounding. -/
theorem exactPrefixSums_pair_a : exactPrefixSums ([noteRead, noteHalf].map savingsOf) := by
  intro k hk
  have hk2 : k ≤ 2 := hk
  interval_cases k <;> decide!

/-- No partial sum of the savings `0.5` and `10.125` needs rounding. -/
theorem exactPrefixSums_pair_b : exactPrefixSums ([noteHalf, noteRead].map savingsOf) := by
  intro k hk
  have hk2 : k ≤ 2 := hk
  interval_cases k <;> decide!

/-- C21, as the code has it: for every product list, every notification list
and every permutation of each, `trackedProducts`, `unreadNotifications` and
`priceDrops` are the same; `totalSavings` does not depend on the order of the
products; and it is the same for a permuted notification list when no partial
sum needs rounding in either order. -/
theorem fetchDashboardData_counts_perm (numberToString : ℚ → String) (s : DashboardState)
    (products products' : List Product) (notifications notifications' : List Notification)
    (hp : products.Perm products') (hn : notifications.Perm notifications') :
    (fetchDashboardData numberToString s (some { products := some products })
        (some { notifications := some notifications })).stats.trackedProducts =
      (fetchDashboardData numberToString s (some { products := some products' })
        (some { notifications := some notifications' })).stats.trackedProducts ∧
    (fetchDashboardData numberToString s (some { products := some products })
        (some { notifications := some notifications })).stats.unreadNotifications =
      (fetchDashboardData numberToString s (some { products := some products' })
        (some { notifications := some notifications' })).stats.unreadNotifications ∧
    (fetchDashboardData numberToString s (some { products := some products })
        (some { notifications := some notifications })).stats.priceDrops =
      (fetchDashboardData numberToString s (some { products := some products' })
        (some { notifications := some notifications' })).stats.priceDrops ∧
    (fetchDashboardData numberToString s (some { products := some products })
        (some { notifications := some notifications })).stats.totalSavings =
      (fetchDashboardData numberToString s (some { products := some products' })
        (some { notifications := some notifications })).stats.totalSavings ∧
    (exactPrefixSums (notifications.map savingsOf) →
      exactPrefixSums (notifications'.map savingsOf) →
      (fetchDashboardData numberToString s (some { products := some products })
          (some { notifications := some notifications })).stats.totalSavings =
        (fetchDashboardData numberToString s (some { products := some products' })
          (some { notifications := some notifications' })).stats.totalSavings) := by
  refine ⟨?_, ?_, ?_, rfl, ?_⟩
  · simp only [fetchDashboardData, Option.getD_some]
    exact hp.length_eq
  · simp only [fetchDashboardData, Option.getD_some]
    exact (hn.filter _).length_eq
  · simp only [fetchDashboardData, Option.getD_some]
    exact (hp.filter _).length_eq
  · intro h h'
    simp only [fetchDashboardData, Option.getD_some, foldl_savings]
    have e := binarySum_eq_exactSum _ h
    have e' := binarySum_eq_exactSum _ h'
    unfold binarySum at e e'
    rw [e, e']
    unfold exactSum
    rw [foldl_add_perm (hn.map savingsOf)]

/-- C21 at two products, one of them a price drop, and two notifications with
savings `10.125` and `0.5`, each list against its reversal: the counters agree
and, no partial sum needing rounding, `totalSavings` is `10.63` in both
orders. -/
theorem fetchDashboardData_counts_perm_witness :
    [lampAt80, lampAt100].Perm [lampAt100, lampAt80] ∧
    [noteRead, noteHalf].Perm [noteHalf, noteRead] ∧
    (fetchDashboardData (fun _ => "") DashboardState.init
        (some { products := some [lampAt80, lampAt100] })
        (some { notifications := some [noteRead, noteHalf] })).stats.priceDrops =
      (fetchDashboardData (fun _ => "") DashboardState.init
        (some { products := some [lampAt100, lampAt80] })
        (some { notifications := some [noteHalf, noteRead] })).stats.priceDrops ∧
    (fetchDashboardData (fun _ => "") DashboardState.init
        (some { products := some [lampAt80, lampAt100] })
        (some { notifications := some [noteRead, noteHalf] })).stats.unreadNotifications =
      (fetchDashboardData (fun _ => "") DashboardState.init
        (some { products := some [lampAt100, lampAt80] })
        (some { notifications := some [noteHalf, noteRead] })).stats.unreadNotifications ∧
    exactPrefixSums ([noteRead, noteHalf].map savingsOf) ∧
    exactPrefixSums ([noteHalf, noteRead].map savingsOf) ∧
    (fetchDashboardData (fun _ => "") DashboardState.init
        (some { products := some [lampAt80, lampAt100] })
        (some { notifications := some [noteRead, noteHalf] })).stats.totalSavings =
      (fetchDashboardData (fun _ => "") DashboardState.init
        (some { products := some [lampAt100, lampAt80] })
        (some { notifications := some [noteHalf, noteRead] })).stats.totalSavings ∧
    (fetchDashboardData (fun _ => "") DashboardState.init
        (some { products := some [lampAt80, lampAt100] })
        (some { notifications := some [noteRead, noteHalf] })).stats =
      { trackedProducts := 2, unreadNotifications := 1, priceDrops := 1,
        totalSavings := "10.63" } :=
  ⟨List.Perm.swap _ _ _, List.Perm.swap _ _ _,
   (fetchDashboardData_counts_perm (fun _ => "") DashboardState.init _ _ _ _
     (List.Perm.swap _ _ _) (List.Perm.swap _ _ _)).2.2.1,
   (fetchDashboardData_counts_perm (fun _ => "") DashboardState.init _ _ _ _
     (List.Perm.swap _ _ _) (List.Perm.swap _ _ _)).2.1,
   exactPrefixSums_pair_a, exactPrefixSums_pair_b,
   (fetchDashboardData_counts_perm (fun _ => "") DashboardState.init _ _ _ _
     (List.Perm.swap _ _ _) (List.Perm.swap _ _ _)).2.2.2.2
       exactPrefixSums_pair_a exactPrefixSums_pair_b,
   by decide!⟩

/-- C21, as stated, fails: three notifications whose savings are the binary64
values of `0.001`, `0.002` and `0.022` give `totalSavings` the text `0.02` in
this order and the text `0.03` in the reverse order. -/
theorem fetchDashboardData_totalSavings_order :
    milliNotes.Perm milliNotes.reverse ∧
    (fetchDashboardData (fun _ => "") DashboardState.init (some { products := some [] })
        (some { notifications := some milliNotes })).stats.totalSavings = "0.02" ∧
    (fetchDashboardData (fun _ => "") DashboardState.init (some { products := some [] })
        (some { notifications := some milliNotes.reverse })).stats.totalSavings = "0.03" := by
  refine ⟨(List.reverse_perm milliNotes).symm, ?_, ?_⟩
  · decide!
  · decide!

/-- C22: for an empty product list and an empty notification list, each given
as an empty array or as an absent field, the statistics are `0`, `0`, `0` and
the text `0.00`. -/
theorem fetchDashboardData_empty (numberToString : ℚ → String) (s : DashboardState)
    (products : Option (List Product)) (notifications : Option (List Notification))
    (hp : products = none ∨ products = some [])
    (hn : notifications = none ∨ notifications = some []) :
    (fetchDashboardData numberToString s (some { products := products })
        (some { notifications := notifications })).stats =
      { trackedProducts := 0, unreadNotifications := 0, priceDrops := 0,
        totalSavings := "0.00" } := by
  rcases hp with rfl | rfl <;> rcases hn with rfl | rfl <;> rfl

/-- C22 with an absent `products` field and an empty `notifications` array. -/
theorem fetchDashboardData_empty_witness :
    (fetchDashboardData (fun _ => "") DashboardState.init (some { products := none })
        (some { notifications := some [] })).stats =
      { trackedProducts := 0, unreadNotifications := 0, priceDrops := 0,
        totalSavings := "0.00" } :=
  fetchDashboardData_empty (fun _ => "") DashboardState.init none (some [])
    (Or.inl rfl) (Or.inr rfl)

/-- C23: for every fetched notification list, `recentActivity` is the prefix
of that list of length `min 5 n`: it has that length, the list is it followed
by the entries from the sixth on, and its entry at every position is the entry
of the list at that position. -/
theorem fetchDashboardData_recentActivity (numberToString : ℚ → String) (s : DashboardState)
    (trackingData : MyProductsData) (notifications : List Notification) :
    (fetchDashboardData numberToString s (some trackingData)
        (some { notifications := some notifications })).recentActivity.length
      = min 5 notifications.length ∧
    (fetchDashboardData numberToString s (some trackingData)
        (some { notifications := some notifications })).recentActivity ++ notifications.drop 5
      = notifications ∧
    ∀ i, i < 5 →
      (fetchDashboardData numberToString s (some trackingData)
        (some { notifications := some notifications })).recentActivity[i]? = notifications[i]? := by
  refine ⟨?_, ?_, ?_⟩
  · simp [fetchDashboardData]
  · simp [fetchDashboardData]
  · intro i hi
    simp [fetchDashboardData, List.getElem?_take, hi]

/-! ## Tracking a search result -/

/-- C24: whenever `handleTrackProduct` sends its request (a non-empty target
input that `isNaN` accepts and a non-empty e-mail), the body has
`current_price` equal to the number of the product's price when that is not
`NaN` and `0` when it is, `target_price` equal to the float parsed from the
input, `url` and `image` equal to the field or the empty string when it is
absent, and `platform` equal to a non-empty `source` or `Unknown` when it is
absent. -/
theorem handleTrackProduct_request (s : SearchState) (product : SearchProduct)
    (targetPrice userEmail : String) (reply : Reply TrackReply)
    (htarget : targetPrice ≠ "") (hnum : isNaN targetPrice = false) (hmail : userEmail ≠ "") :
    ∃ trackData : TrackData,
      (handleTrackProduct s product (some targetPrice) (some userEmail) reply).requests
        = s.requests ++ [Request.trackProduct trackData] ∧
      trackData.name = product.title ∧
      (product.price.toNumber ≠ JSNum.nan → trackData.current_price = product.price.toNumber) ∧
      (product.price.toNumber = JSNum.nan → trackData.current_price = JSNum.fin 0) ∧
      trackData.target_price = parseFloat targetPrice ∧
      trackData.user_email = userEmail ∧
      (product.url = none → trackData.url = "") ∧
      (∀ u, product.url = some u → trackData.url = u) ∧
      (product.image_url = none → trackData.image = "") ∧
      (∀ u, product.image_url = some u → trackData.image = u) ∧
      (product.source = none → trackData.platform = "Unknown") ∧
      (∀ v, product.source = some v → v ≠ "" → trackData.platform = v) := by
  refine ⟨{ name := product.title,
            current_price :=
              if product.price.toNumber.toBoolean then product.price.toNumber else JSNum.zero,
            target_price := parseFloat targetPrice,
            user_email := userEmail,
            url := stringOr product.url "",
            image := stringOr product.image_url "",
            platform := stringOr product.source "Unknown" }, ?_, rfl, ?_, ?_, rfl, rfl,
          ?_, ?_, ?_, ?_, ?_, ?_⟩
  · cases reply <;> simp [handleTrackProduct, htarget, hnum, hmail]
  · intro h
    cases hp : product.price.toNumber with
    | nan => exact absurd hp h
    | fin q =>
      by_cases hq : q = 0
      · simp [JSNum.toBoolean, JSNum.zero, hq]
      · simp [JSNum.toBoolean, hq]
    | inf neg => simp [JSNum.toBoolean]
  · intro h
    simp [h, JSNum.toBoolean, JSNum.zero]
  · intro h; simp [h, stringOr]
  · intro u h
    by_cases hu : u = "" <;> simp [h, stringOr, hu]
  · intro h; simp [h, stringOr]
  · intro u h
    by_cases hu : u = "" <;> simp [h, stringOr, hu]
  · intro h; simp [h, stringOr]
  · intro v h hv
    simp [h, stringOr, hv]

/-- C24 at the search result priced `100`, the target input `90` and the
e-mail `user@example.com`. -/
theorem handleTrackProduct_request_witness :
    ("90" : String) ≠ "" ∧ isNaN "90" = false ∧ ("user@example.com" : String) ≠ "" ∧
    ∃ trackData : TrackData,
      (handleTrackProduct unpricedSearch searchLamp (some "90") (some "user@example.com")
          (Reply.ok { message := some "Tracking started" })).requests
        = unpricedSearch.requests ++ [Request.trackProduct trackData] ∧
      trackData.target_price = parseFloat "90" :=
  ⟨by decide, by decide, by decide,
   (handleTrackProduct_request unpricedSearch searchLamp "90" "user@example.com"
      (Reply.ok { message := some "Tracking started" }) (by decide) (by decide)
      (by decide)).imp (fun _ h => ⟨h.1, h.2.2.2.2.1⟩)⟩

/-- The inputs `handleTrackProduct` rejects: a cancelled prompt, an empty
answer and an answer that is not a numeric literal send no request. -/
theorem handleTrackProduct_rejects (s : SearchState) (product : SearchProduct)
    (targetPrice : String) (userEmail : Option String) (reply : Reply TrackReply) :
    (handleTrackProduct s product none userEmail reply).requests = s.requests ∧
    (handleTrackProduct s product (some "") userEmail reply).requests = s.requests ∧
    (isNaN targetPrice = true →
      (handleTrackProduct s product (some targetPrice) userEmail reply).requests
        = s.requests) := by
  refine ⟨rfl, rfl, ?_⟩
  intro h
  simp [handleTrackProduct, h]

/-- C25 fails on the code: the target input made of one blank passes both
tests of `handleTrackProduct` (the string is not empty and `Number(" ")` is
`0`), while `parseFloat(" ")` is `NaN`; the request is sent with
`target_price` equal to `NaN`. -/
theorem handleTrackProduct_blank_target :
    parseFloat " " = JSNum.nan ∧ isNaN " " = false ∧
    ∀ reply : Reply TrackReply,
      (handleTrackProduct unpricedSearch searchLamp (some " ") (some "user@example.com")
          reply).requests =
        [Request.trackProduct
          { name := "Desk lamp", current_price := JSNum.fin 100, target_price := JSNum.nan,
            user_email := "user@example.com", url := "https://shop.example/lamp",
            image := "", platform := "Shop" }] := by
  have hparse : parseFloat " " = JSNum.nan := by decide
  have hnum : isNaN " " = false := by decide
  refine ⟨hparse, hnum, fun reply => ?_⟩
  cases reply <;>
    simp [handleTrackProduct, hparse, hnum, searchLamp, unpricedSearch, stringOr,
      JSValOrString.toNumber, JSVal.toNumber, JSNum.toBoolean]

/-! ## Failed requests and their messages -/

/-- A text that starts with a non-empty text is not empty. -/
theorem append_ne_empty (a b : String) (h : a ≠ "") : a ++ b ≠ "" := by
  intro hab
  apply h
  have hdata : (a ++ b).data = [] := by rw [hab]
  rw [String.data_append] at hdata
  exact String.ext (List.append_eq_nil.1 hdata).1

/-- The expression `x || fallback` is not empty when `fallback` is not. -/
theorem stringOr_ne_empty (x : Option String) (fallback : String) (h : fallback ≠ "") :
    stringOr x fallback ≠ "" := by
  unfold stringOr
  cases x with
  | none => exact h
  | some v => by_cases hv : v = "" <;> simp [hv, h]

/-- The operations other than the dashboard fetch show a non-empty message
when their request fails: the lists set `error`, the others call `alert`. -/
theorem failures_surface_message (err : RequestError) (t : TrackingListState)
    (m : MyProductsState) (n : NotificationsState) (s : SearchState)
    (product : SearchProduct) (productId newTargetPrice targetPrice userEmail email : String)
    (htarget : targetPrice ≠ "") (hnum : isNaN targetPrice = false) (hmail : userEmail ≠ "")
    (hemail : email ≠ "") :
    (fetchTrackedProducts t (Reply.error err)).error ≠ "" ∧
    (fetchProducts m (Reply.error err)).error ≠ "" ∧
    (fetchNotifications n (Reply.error err)).error ≠ "" ∧
    (∃ msg, msg ≠ "" ∧
      (handleTrackProduct s product (some targetPrice) (some userEmail) (Reply.error err)).alerts
        = s.alerts ++ [msg]) ∧
    (∃ msg, msg ≠ "" ∧
      (handleUntrack t productId true (Reply.error err)).alerts = t.alerts ++ [msg]) ∧
    (∃ msg, msg ≠ "" ∧
      (handleUpdateTargetPrice t productId newTargetPrice (Reply.error err)).alerts
        = t.alerts ++ [msg]) ∧
    (∃ msg, msg ≠ "" ∧
      (sendTestNotification n (some email) (Reply.error err)).alerts = n.alerts ++ [msg]) := by
  refine ⟨by simp [fetchTrackedProducts], ?_, by simp [fetchNotifications], ?_, ?_, ?_, ?_⟩
  · simp only [fetchProducts]
    exact stringOr_ne_empty _ _ (stringOr_ne_empty _ _ (by decide))
  · exact ⟨"❌ Failed to track product: " ++
        stringOr err.responseMessage (stringOr err.responseError err.message),
      append_ne_empty _ _ (by decide),
      by simp [handleTrackProduct, htarget, hnum, hmail]⟩
  · exact ⟨"Failed to untrack product", by decide, rfl⟩
  · exact ⟨"Failed to update target price", by decide, rfl⟩
  · exact ⟨"❌ " ++ stringOr err.responseMessage "Failed to send test email",
      append_ne_empty _ _ (by decide), by simp [sendTestNotification, hemail]⟩

/-- C26 fails on the code for the dashboard: when either of its two requests
fails, `fetchDashboardData` only clears `loading`; the statistics and the
recent activity stay what they were, and the state of `Dashboard`, which has no
error field, holds no message. From the mount state the view shows the zeros
of an empty account. -/
theorem fetchDashboardData_silent_failure (numberToString : ℚ → String) (s : DashboardState)
    (trackingResponse : Option MyProductsData)
    (notificationsResponse : Option MyNotificationsData) :
    fetchDashboardData numberToString s none notificationsResponse
      = { s with loading := false } ∧
    fetchDashboardData numberToString s trackingResponse none
      = { s with loading := false } ∧
    fetchDashboardData numberToString DashboardState.init none none =
      { stats := { trackedProducts := 0, unreadNotifications := 0, priceDrops := 0,
                   totalSavings := "0" },
        recentActivity := [], loading := false } := by
  refine ⟨rfl, ?_, rfl⟩
  cases trackingResponse <;> rfl

/-! ## Routes -/

/-- Two routes that match the same location have the same key. -/
theorem matchesRoute_key (a b path : String) (ha : matchesRoute a path = true)
    (hb : matchesRoute b path = true) : routeKey a = routeKey b := by
  simp only [matchesRoute, Bool.and_eq_true, beq_iff_eq] at ha hb
  rw [← ha.2, ← hb.2]

/-- C27, as the code has it: while `loading` is set every location renders
the loading screen and nothing else; once it is cleared, a location of the
routes `/dashboard` and `/tracking` (in any letter case, with or without
slashes at its end) renders a redirect to `/login` when no identity is held
and the view when one is held, while a location of the routes `/my-products`
and `/notifications` renders its view whether or not an identity is held; the
navigation bar offers these two routes, and neither `/dashboard` nor
`/tracking`, when no identity is held. -/
theorem render_routes (s : SessionState) (path : String) :
    (s.loading = true → render s path = Rendered.loadingScreen) ∧
    (s.loading = false → matchesRoute "/dashboard" path = true →
      render s path = Rendered.element
        (if s.user.isSome then RouteElement.dashboard else RouteElement.navigate "/login")) ∧
    (s.loading = false → matchesRoute "/tracking" path = true →
      render s path = Rendered.element
        (if s.user.isSome then RouteElement.trackingList else RouteElement.navigate "/login")) ∧
    (s.loading = false → matchesRoute "/my-products" path = true →
      render s path = Rendered.element RouteElement.myProducts) ∧
    (s.loading = false → matchesRoute "/notifications" path = true →
      render s path = Rendered.element RouteElement.notifications) ∧
    (s.user = none → navbarLinks s =
      ["/", "/search", "/my-products", "/notifications", "/login", "/register"]) ∧
    matchesRoute "/dashboard" "/dashboard" = true ∧
    matchesRoute "/dashboard" "/Dashboard/" = true ∧
    matchesRoute "/tracking" "/tracking" = true ∧
    matchesRoute "/dashboard" "/dashboards" = false ∧
    render signedOut "/dashboard" = Rendered.element (RouteElement.navigate "/login") ∧
    render signedOut "/Tracking/" = Rendered.element (RouteElement.navigate "/login") ∧
    render (SessionState.init none) "/my-products" = Rendered.loadingScreen := by
  have hne : ∀ a b : String, routeKey a ≠ routeKey b → matchesRoute b path = true →
      matchesRoute a path = false := by
    intro a b hab hb
    cases ha : matchesRoute a path
    · rfl
    · exact absurd (matchesRoute_key a b path ha hb) hab
  refine ⟨?_, ?_, ?_, ?_, ?_, ?_, by decide, by decide, by decide, by decide, by decide,
    by decide, by decide⟩
  · intro h
    simp [render, h]
  · intro h hm
    simp [render, h, hm, hne "/login" "/dashboard" (by decide) hm,
      hne "/register" "/dashboard" (by decide) hm]
  · intro h hm
    simp [render, h, hm, hne "/login" "/tracking" (by decide) hm,
      hne "/register" "/tracking" (by decide) hm, hne "/dashboard" "/tracking" (by decide) hm,
      hne "/search" "/tracking" (by decide) hm]
  · intro h hm
    simp [render, h, hm, hne "/login" "/my-products" (by decide) hm,
      hne "/register" "/my-products" (by decide) hm,
      hne "/dashboard" "/my-products" (by decide) hm,
      hne "/search" "/my-products" (by decide) hm, hne "/tracking" "/my-products" (by decide) hm]
  · intro h hm
    simp [render, h, hm, hne "/login" "/notifications" (by decide) hm,
      hne "/register" "/notifications" (by decide) hm,
      hne "/dashboard" "/notifications" (by decide) hm,
      hne "/search" "/notifications" (by decide) hm,
      hne "/tracking" "/notifications" (by decide) hm,
      hne "/my-products" "/notifications" (by decide) hm]
  · intro h
    simp [navbarLinks, h]

/-- C27, as stated, fails for two of its four routes: for the visitor who
starts with no stored credential, once the session is restored no identity is
held and `loading` is cleared, and the locations `/my-products` and
`/notifications` render the views `MyProducts` and `Notifications`, not a
redirect to `/login`. -/
theorem render_ungated_without_identity :
    signedOut.user = none ∧
    signedOut.loading = false ∧
    render signedOut "/my-products" = Rendered.element RouteElement.myProducts ∧
    render signedOut "/notifications" = Rendered.element RouteElement.notifications := by
  decide

/-! ## The session invariant -/

/-- The calls `login` and `logout` establish the invariant from any state. -/
theorem apply_invariant (s : SessionState) (a : SessionAction) :
    sessionInvariant (a.apply s) := by
  cases a with
  | login userData token =>
    refine ⟨rfl, ?_, fun _ => rfl⟩
    intro t ht
    simp only [SessionAction.apply, login, Option.some.injEq] at ht ⊢
    rw [ht]
  | logout =>
    refine ⟨rfl, ?_, ?_⟩
    · intro t ht
      simp [SessionAction.apply, logout] at ht
    · intro h
      simp [SessionAction.apply, logout] at h

/-- The mount effect establishes the invariant unless the stored credential is
the empty string. -/
theorem restoreSession_invariant (stored : Option String) (verify : Reply VerifyData)
    (h : stored ≠ some "") :
    sessionInvariant (restoreSession (SessionState.init stored) verify) := by
  cases stored with
  | none => exact ⟨rfl, fun t ht => by simp [restoreSession, SessionState.init] at ht,
      fun hu => by simp [restoreSession, SessionState.init] at hu⟩
  | some token =>
    have hne : token ≠ "" := fun e => h (by rw [e])
    cases verify with
    | ok data =>
      cases hv : data.valid
      · refine ⟨?_, ?_, ?_⟩ <;> simp [restoreSession, SessionState.init, hne, hv]
      · refine ⟨?_, ?_, ?_⟩ <;> simp [restoreSession, SessionState.init, hne, hv]
    | error err =>
      refine ⟨?_, ?_, ?_⟩ <;> simp [restoreSession, SessionState.init, hne]

/-- A run of calls from a state with the invariant ends in a state with it. -/
theorem foldl_invariant (actions : List SessionAction) (s : SessionState)
    (h : sessionInvariant s) :
    sessionInvariant (actions.foldl SessionAction.apply s) := by
  induction actions generalizing s with
  | nil => exact h
  | cons a rest ih => exact ih _ (apply_invariant s a)

/-- C28, as the code has it: when the process starts with no stored credential
or with a non-empty one, every state reached through session restoration with
any verify outcome and any sequence of `login` and `logout` calls has the
`Authorization` header present if and only if a credential is stored, the
header then equal to `Bearer ` followed by the stored credential, and an
identity held only when a credential is stored. -/
theorem session_invariant_reachable (stored : Option String) (verify : Reply VerifyData)
    (actions : List SessionAction) (hstored : stored ≠ some "") :
    sessionInvariant (runSession stored verify actions) :=
  foldl_invariant actions _ (restoreSession_invariant stored verify hstored)

/-- C28 at the stored credential `abc`, a verify answer `valid = true` and the
calls `logout`, `login`. -/
theorem session_invariant_reachable_witness :
    (some "abc" : Option String) ≠ some "" ∧
    sessionInvariant
      (runSession (some "abc")
        (Reply.ok { valid := true, user := some { id := "u1", email := "a@b.c" } })
        [SessionAction.logout,
         SessionAction.login (some { id := "u1", email := "a@b.c" }) "def"]) :=
  ⟨by decide,
   session_invariant_reachable (some "abc")
     (Reply.ok { valid := true, user := some { id := "u1", email := "a@b.c" } })
     [SessionAction.logout, SessionAction.login (some { id := "u1", email := "a@b.c" }) "def"]
     (by decide)⟩

/-- C28, as stated, fails: when the process starts with the empty string as
stored credential, the mount effect makes no verify call and leaves the state
with a credential stored and no `Authorization` header. -/
theorem session_invariant_empty_credential :
    (runSession (some "") (Reply.ok { valid := true, user := none }) []).token = some "" ∧
    (runSession (some "") (Reply.ok { valid := true, user := none }) []).authorization = none ∧
    (runSession (some "") (Reply.ok { valid := true, user := none }) []).requests = [] ∧
    (runSession (some "") (Reply.ok { valid := true, user := none }) []).authorization.isSome
      ≠ (runSession (some "") (Reply.ok { valid := true, user := none }) []).token.isSome := by
  decide

/-! ## The two price-status computations -/

/-- A value that is `<=` another and not `<` it is that value. -/
theorem js_le_not_lt (a b : JSNum) (hle : JSNum.le a b = true) (hlt : JSNum.lt a b = false) :
    a = b := by
  cases a <;> cases b <;> simp_all [JSNum.le, JSNum.lt]
  · exact le_antisymm hle hlt
  · rename_i x y
    cases x <;> cases y <;> simp_all

/-- A truthy number is `<=` itself and not `<` itself. -/
theorem js_le_refl (a : JSNum) (h : a.toBoolean = true) :
    JSNum.le a a = true ∧ JSNum.lt a a = false := by
  cases a <;> simp_all [JSNum.le, JSNum.lt, JSNum.toBoolean]

/-- A value above a non-negative value is truthy. -/
theorem js_pos_truthy (a b : JSNum) (ha : JSNum.le JSNum.zero a = true)
    (hlt : JSNum.lt a b = true) : b.toBoolean = true ∧ JSNum.le a b = true := by
  cases a <;> cases b <;> simp_all [JSNum.le, JSNum.lt, JSNum.toBoolean, JSNum.zero]
  · constructor
    · intro h; linarith
    · exact le_of_lt hlt

/-- Two counts, one of a condition that implies the other: the first is at
most the second, and they are equal exactly when the second condition implies
the first on the list. -/
theorem countP_le_and_eq_iff {α : Type} (P Q : α → Bool) (l : List α)
    (h : ∀ x ∈ l, P x = true → Q x = true) :
    l.countP P ≤ l.countP Q ∧
    (l.countP P = l.countP Q ↔ ∀ x ∈ l, Q x = true → P x = true) := by
  induction l with
  | nil => simp
  | cons a rest ih =>
    have ih' := ih (fun x hx => h x (List.mem_cons_of_mem _ hx))
    have ha := h a (List.mem_cons_self _ _)
    cases hP : P a <;> cases hQ : Q a
    · simp only [List.countP_cons, hP, hQ, List.forall_mem_cons]
      simpa using ih'
    · simp only [List.countP_cons, hP, hQ, List.forall_mem_cons]
      refine ⟨by simp only [if_true, Bool.false_eq_true, if_false]; omega, ?_⟩
      simp only [if_true, Bool.false_eq_true, if_false]
      constructor
      · intro heq; omega
      · intro hall; exact absurd (hall.1 (by simp)) (by simp)
    · rw [hP] at ha; exact absurd (ha rfl) (by rw [hQ]; decide)
    · simp only [List.countP_cons, hP, hQ, List.forall_mem_cons]
      simpa using ih'

/-- The status of `getPriceStatus` is `success` exactly when the target is
truthy and `current_price <= target_price`. -/
theorem reached_iff (numberToString : ℚ → String) (p : Product) :
    (getPriceStatus numberToString p).map PriceStatus.status = some "success" ↔
      (p.target_price.toBoolean = true ∧ JSVal.le p.current_price p.target_price = true) := by
  unfold getPriceStatus
  cases ht : p.target_price.toBoolean <;> cases hle : JSVal.le p.current_price p.target_price <;>
    simp

/-- C29: for every list of tracked products whose prices are numbers `>= 0`,
every product counted in `priceDrops` (`current_price < target_price`) has
the reached status, so `priceDrops` is at most the number of reached products;
the two counts are equal exactly when no product with a truthy target has
`current_price` equal to `target_price`. -/
theorem priceDrops_le_reached (numberToString : ℚ → String) (s : DashboardState)
    (products : List Product) (notificationsData : MyNotificationsData)
    (hnonneg : ∀ p ∈ products,
      JSNum.le JSNum.zero p.current_price.toNumber = true ∧
      JSNum.le JSNum.zero p.target_price.toNumber = true) :
    (∀ p ∈ products, JSVal.lt p.current_price p.target_price = true →
      (getPriceStatus numberToString p).map PriceStatus.status = some "success") ∧
    (fetchDashboardData numberToString s (some { products := some products })
        (some notificationsData)).stats.priceDrops
      ≤ products.countP (fun p =>
          decide ((getPriceStatus numberToString p).map PriceStatus.status = some "success")) ∧
    ((fetchDashboardData numberToString s (some { products := some products })
        (some notificationsData)).stats.priceDrops
      = products.countP (fun p =>
          decide ((getPriceStatus numberToString p).map PriceStatus.status = some "success"))
      ↔ ∀ p ∈ products, p.target_price.toBoolean = true →
          p.current_price.toNumber ≠ p.target_price.toNumber) := by
  have hdrop : ∀ p ∈ products, JSVal.lt p.current_price p.target_price = true →
      (getPriceStatus numberToString p).map PriceStatus.status = some "success" := by
    intro p hp hlt
    obtain ⟨htruthy, hle⟩ := js_pos_truthy _ _ (hnonneg p hp).1 hlt
    refine (reached_iff numberToString p).2 ⟨?_, hle⟩
    cases htp : p.target_price with
    | undefined => simp [htp, JSVal.toNumber, JSNum.toBoolean] at htruthy
    | null => simp [htp, JSVal.toNumber, JSNum.toBoolean, JSNum.zero] at htruthy
    | num n => simpa [htp, JSVal.toNumber, JSVal.toBoolean] using htruthy
  have hcount := countP_le_and_eq_iff
    (fun p : Product => JSVal.lt p.current_price p.target_price)
    (fun p => decide ((getPriceStatus numberToString p).map PriceStatus.status = some "success"))
    products (fun p hp h => by simpa using hdrop p hp h)
  have hstat : (fetchDashboardData numberToString s (some { products := some products })
        (some notificationsData)).stats.priceDrops
      = products.countP (fun p : Product => JSVal.lt p.current_price p.target_price) := by
    simp only [fetchDashboardData, Option.getD_some, List.countP_eq_length_filter]
  refine ⟨hdrop, by rw [hstat]; exact hcount.1, ?_⟩
  rw [hstat, hcount.2]
  constructor
  · intro h p hp htruthy heq
    have hnum : p.target_price.toNumber.toBoolean = true := by
      cases htp : p.target_price with
      | undefined => simp [htp, JSVal.toBoolean] at htruthy
      | null => simp [htp, JSVal.toBoolean] at htruthy
      | num n => simpa [htp, JSVal.toNumber, JSVal.toBoolean] using htruthy
    obtain ⟨hle, hnlt⟩ := js_le_refl _ hnum
    have hreached : (getPriceStatus numberToString p).map PriceStatus.status = some "success" :=
      (reached_iff numberToString p).2 ⟨htruthy, by simpa [JSVal.le, heq] using hle⟩
    have hlt := h p hp (by simpa using hreached)
    have hlt' : JSNum.lt p.target_price.toNumber p.target_price.toNumber = true := by
      simpa [JSVal.lt, heq] using hlt
    rw [hnlt] at hlt'
    exact absurd hlt' (by decide)
  · intro h p hp hreached
    have hr := (reached_iff numberToString p).1 (by simpa using hreached)
    cases hlt : JSVal.lt p.current_price p.target_price
    · exact absurd (js_le_not_lt _ _ hr.2 hlt) (h p hp hr.1)
    · exact hlt

/-- C29 at the products tracked at `80`, `90` and `100` with target `90`: the
first is counted in `priceDrops` and is reached, `priceDrops` is `1`, the
reached products are `2`, and the counts differ because the second has
`current_price` equal to `target_price`. -/
theorem priceDrops_le_reached_witness :
    (∀ p ∈ [lampAt80, lampAt90, lampAt100],
      JSNum.le JSNum.zero p.current_price.toNumber = true ∧
      JSNum.le JSNum.zero p.target_price.toNumber = true) ∧
    (fetchDashboardData (fun _ => "") DashboardState.init
        (some { products := some [lampAt80, lampAt90, lampAt100] })
        (some { notifications := none })).stats.priceDrops = 1 ∧
    [lampAt80, lampAt90, lampAt100].countP (fun p =>
        decide ((getPriceStatus (fun _ => "") p).map PriceStatus.status = some "success")) = 2 ∧
    JSVal.lt lampAt80.current_price lampAt80.target_price = true ∧
    (getPriceStatus (fun _ => "") lampAt80).map PriceStatus.status = some "success" ∧
    (fetchDashboardData (fun _ => "") DashboardState.init
        (some { products := some [lampAt80, lampAt90, lampAt100] })
        (some { notifications := none })).stats.priceDrops
      ≤ [lampAt80, lampAt90, lampAt100].countP (fun p =>
          decide ((getPriceStatus (fun _ => "") p).map PriceStatus.status = some "success")) ∧
    (fetchDashboardData (fun _ => "") DashboardState.init
        (some { products := some [lampAt80, lampAt90, lampAt100] })
        (some { notifications := none })).stats.priceDrops
      ≠ [lampAt80, lampAt90, lampAt100].countP (fun p =>
          decide ((getPriceStatus (fun _ => "") p).map PriceStatus.status = some "success")) ∧
    lampAt90.target_price.toBoolean = true ∧
    lampAt90.current_price.toNumber = lampAt90.target_price.toNumber :=
  ⟨by decide!, by decide!, by decide!, by decide!,
   (priceDrops_le_reached (fun _ => "") DashboardState.init [lampAt80, lampAt90, lampAt100]
      { notifications := none } (by decide!)).1 lampAt80 (by decide) (by decide!),
   (priceDrops_le_reached (fun _ => "") DashboardState.init [lampAt80, lampAt90, lampAt100]
      { notifications := none } (by decide!)).2.1,
   fun h => (priceDrops_le_reached (fun _ => "") DashboardState.init
      [lampAt80, lampAt90, lampAt100] { notifications := none } (by decide!)).2.2.1 h
        lampAt90 (by decide) (by decide!) (by decide!),
   by decide!, by decide!⟩

/-- C30: for every tracked product whose `target_price` is set (truthy), the
status class and the message computed inline in `MyProducts` are the status and
the message `getPriceStatus` returns. -/
theorem productRow_agrees (numberToString : ℚ → String) (p : Product)
    (hset : p.target_price.toBoolean = true) :
    getPriceStatus numberToString p =
      some { status := (productRow numberToString p).priceStatus,
             message := (productRow numberToString p).message } := by
  unfold getPriceStatus productRow
  cases hle : JSVal.le p.current_price p.target_price <;>
    simp [hset, JSValOrString.toText]

/-- C30 at the product tracked at `100` with target `90`. -/
theorem productRow_agrees_witness :
    lampAt100.target_price.toBoolean = true ∧
    getPriceStatus (fun _ => "") lampAt100 =
      some { status := (productRow (fun _ => "") lampAt100).priceStatus,
             message := (productRow (fun _ => "") lampAt100).message } :=
  ⟨by decide, productRow_agrees (fun _ => "") lampAt100 (by decide)⟩

end PriceHawk
